import Mathlib

/-!
Verification of the claims-processing and premium-rating core of a P&C
insurance library.

Shallow embedding conventions:
* Python `float` money amounts are modelled as `ℚ` (all amounts of interest
  are exact decimals).
* `datetime` values are modelled as `Int` timestamps at day granularity, so
  Python's `(b - a).days` becomes `b - a`; wall-clock `datetime.now()` is an
  explicit `now : Int` argument threaded through each operation (one call
  instant per operation).
* `uuid.uuid4()` identifiers are abstracted: callers supply fresh id strings
  (uniqueness, not format, is the contract); the random ids of notes and
  documents, which no code reads back, are dropped from the records.
* Python dicts are modelled as insertion-ordered association lists
  (`List (key × value)`); dict iteration order is list order.
* Python's `:.2f` money formatting inside note strings is abstracted by
  `fmtMoney`; note contents are otherwise verbatim.
* The regex classes `[A-Z]` and `\d` are modelled as the ASCII classes
  (`Char.isUpper`, `Char.isDigit`).
-/

namespace ClaimsLib

/-- Constant `CLAIM_STATUS_CODES` from `claims_processor.py`: the fixed status
vocabulary with human-readable descriptions. -/
def CLAIM_STATUS_CODES : List (String × String) :=
  [("NEW", "Newly reported claim"),
   ("ASSIGNED", "Assigned to adjuster"),
   ("INVESTIGATING", "Under investigation"),
   ("PENDING_INFO", "Pending additional information"),
   ("APPROVED", "Claim approved for payment"),
   ("PARTIAL_APPROVED", "Claim partially approved"),
   ("DENIED", "Claim denied"),
   ("CLOSED", "Claim closed"),
   ("REOPENED", "Previously closed claim reopened")]

/-- An audit note appended to a claim (`Claim.add_note`); the random note id
is abstracted away (never read back by the code). -/
structure Note where
  content : String
  created_by : String
  timestamp : Int
deriving DecidableEq

/-- A document record appended by `Claim.add_document`; the random document
id is abstracted away. -/
structure Document where
  name : String
  doc_type : String
  content_ref : String
  uploaded_by : String
  upload_date : Int
deriving DecidableEq

/-- The `Claim` entity of `claims_processor.py`. -/
structure Claim where
  claim_id : String
  policy_number : String
  claim_type : String
  incident_date : Int
  reported_date : Int
  description : String
  claimant_info : List (String × String)
  estimated_value : ℚ
  actual_value : ℚ
  status : String
  assigned_adjuster : Option String
  coverage_verified : Bool
  documents : List Document
  notes : List Note
  state_code : String
  last_updated : Int
deriving DecidableEq

/-- Python's `f"{q:.2f}"` money formatting, abstracted to `toString`. -/
def fmtMoney (q : ℚ) : String := toString q

/-- Method `Claim.add_note`: append `{content, created_by, timestamp=now}` to
`notes` and set `last_updated` to the note's timestamp. -/
def Claim.add_note (c : Claim) (content created_by : String) (now : Int) : Claim :=
  { c with
    notes := c.notes ++ [{ content := content, created_by := created_by, timestamp := now }],
    last_updated := now }

/-- Constructor `Claim.__init__`: all fields initialised, `state_code` taken from
`claimant_info.get('state', 'DEFAULT')`, then the initial
"Claim created" note is added (which bumps `last_updated` to `now`). -/
def Claim.create (claim_id policy_number claim_type : String)
    (incident_date reported_date : Int) (description : String)
    (claimant_info : List (String × String)) (estimated_value : ℚ)
    (now : Int) : Claim :=
  let base : Claim :=
    { claim_id := claim_id
      policy_number := policy_number
      claim_type := claim_type
      incident_date := incident_date
      reported_date := reported_date
      description := description
      claimant_info := claimant_info
      estimated_value := estimated_value
      actual_value := 0
      status := "NEW"
      assigned_adjuster := none
      coverage_verified := false
      documents := []
      notes := []
      state_code := (((claimant_info.find? (fun kv => kv.1 == "state")).map Prod.snd).getD "DEFAULT")
      last_updated := reported_date }
  base.add_note "Claim created" "SYSTEM" now

/-- Method `Claim.update_status`: reject a status outside `CLAIM_STATUS_CODES`
(returning `false` and leaving the claim untouched); otherwise set the
status, bump `last_updated`, and record the transition note. -/
def Claim.update_status (c : Claim) (new_status updated_by : String) (now : Int) :
    Claim × Bool :=
  if (CLAIM_STATUS_CODES.map Prod.fst).contains new_status then
    let old_status := c.status
    let c1 := { c with status := new_status, last_updated := now }
    (c1.add_note ("Status changed from " ++ old_status ++ " to " ++ new_status) updated_by now,
     true)
  else
    (c, false)

/-- Method `Claim.assign_adjuster`: set the adjuster; a first assignment (previous
adjuster `None`) additionally triggers `update_status('ASSIGNED')` before the
assignment note; a reassignment only records the reassignment note. -/
def Claim.assign_adjuster (c : Claim) (adjuster_id updated_by : String) (now : Int) : Claim :=
  let old := c.assigned_adjuster
  let c1 := { c with assigned_adjuster := some adjuster_id, last_updated := now }
  match old with
  | some o =>
      c1.add_note ("Reassigned from adjuster " ++ o ++ " to " ++ adjuster_id) updated_by now
  | none =>
      let c2 := (c1.update_status "ASSIGNED" updated_by now).1
      c2.add_note ("Assigned to adjuster " ++ adjuster_id) updated_by now

/-- Method `Claim.add_document`: append the document record, bump `last_updated`
to the upload date, and record a note. -/
def Claim.add_document (c : Claim) (document_name document_type content_ref uploaded_by : String)
    (now : Int) : Claim :=
  let doc : Document :=
    { name := document_name, doc_type := document_type, content_ref := content_ref,
      uploaded_by := uploaded_by, upload_date := now }
  let c1 := { c with documents := c.documents ++ [doc], last_updated := now }
  c1.add_note ("Document added: " ++ document_name ++ " (" ++ document_type ++ ")") uploaded_by now

/-- Method `Claim.update_value`: update `estimated_value` or `actual_value`
depending on `is_estimate`, bump `last_updated`, record a before/after
note. -/
def Claim.update_value (c : Claim) (new_value : ℚ) (is_estimate : Bool) (updated_by : String)
    (now : Int) : Claim :=
  let old_value := if is_estimate then c.estimated_value else c.actual_value
  let value_type := if is_estimate then "Estimated" else "Actual"
  let c1 :=
    if is_estimate then { c with estimated_value := new_value }
    else { c with actual_value := new_value }
  let c2 := { c1 with last_updated := now }
  c2.add_note (value_type ++ " value updated from $" ++ fmtMoney old_value ++ " to $"
      ++ fmtMoney new_value) updated_by now

/-- Method `Claim.verify_coverage`: set `coverage_verified := true` unconditionally;
a negative outcome additionally forces status `DENIED`; record a note. -/
def Claim.verify_coverage (c : Claim) (is_covered : Bool) (reason verified_by : String)
    (now : Int) : Claim :=
  let c1 := { c with coverage_verified := true, last_updated := now }
  if is_covered then
    c1.add_note ("Coverage verified: " ++ reason) verified_by now
  else
    let c2 := (c1.update_status "DENIED" verified_by now).1
    c2.add_note ("Coverage denied: " ++ reason) verified_by now

/-- An adjuster profile, modelled after the keys the source reads from the
profile dict: `specializations` (plural list, read by `_auto_assign_adjuster`),
the optional singular `specialization` key (read by `flag_for_investigation`;
absent — `none` — in the documented profile shape `{name, specializations,
states}`), and `states`. -/
structure Adjuster where
  name : String
  specializations : List String
  specialization : Option String
  states : List String
deriving DecidableEq

/-- The `ClaimsProcessor` state: the insertion-ordered claim map, the
adjuster table, and the configuration (auto-assignment flag and the three
fraud thresholds). -/
structure ClaimsProcessor where
  claims : List (String × Claim)
  auto_assignment : Bool
  adjusters : List (String × Adjuster)
  fraud_time_to_report : Int
  fraud_value_threshold : ℚ
  fraud_multiple_claims : Nat
deriving DecidableEq

/-- Method `ClaimsProcessor.get_claim`: dictionary lookup by claim id. -/
def ClaimsProcessor.get_claim (p : ClaimsProcessor) (claim_id : String) : Option Claim :=
  (p.claims.find? (fun kv => kv.1 == claim_id)).map Prod.snd

/-- In-place mutation of the stored claim object with the given id
(Python mutates the `Claim` held in the processor's dict). -/
def ClaimsProcessor.setClaim (p : ClaimsProcessor) (claim_id : String) (f : Claim → Claim) :
    ClaimsProcessor :=
  { p with claims := p.claims.map (fun kv => if kv.1 == claim_id then (kv.1, f kv.2) else kv) }

/-- Method `ClaimsProcessor.get_claims_by_adjuster`: linear filter in insertion
order. -/
def ClaimsProcessor.get_claims_by_adjuster (p : ClaimsProcessor) (adjuster_id : String) :
    List Claim :=
  (p.claims.map Prod.snd).filter (fun c => c.assigned_adjuster == some adjuster_id)

/-- Method `ClaimsProcessor.get_claims_by_policy`: linear filter in insertion
order. -/
def ClaimsProcessor.get_claims_by_policy (p : ClaimsProcessor) (policy_number : String) :
    List Claim :=
  (p.claims.map Prod.snd).filter (fun c => c.policy_number == policy_number)

/-- Python's `min(workloads, key=workloads.get)` over the insertion-ordered
workload dict: fold keeping the first pair achieving the minimum value. -/
def argminFirst (w0 : String × Nat) (ws : List (String × Nat)) : String :=
  (ws.foldl (fun best kv => if kv.2 < best.2 then kv else best) w0).1

/-- The candidate pool of `_auto_assign_adjuster`: adjusters whose
`specializations` contain the claim type, falling back to the whole table
when none match. -/
def ClaimsProcessor.candidate_adjusters (p : ClaimsProcessor) (t : String) :
    List (String × Adjuster) :=
  let specialized := p.adjusters.filter (fun kv => kv.2.specializations.contains t)
  if specialized.isEmpty then p.adjusters else specialized

/-- Method `ClaimsProcessor._auto_assign_adjuster`: filter the adjuster table to
those whose `specializations` contain the claim's type (falling back to the
whole table when none match), compute each candidate's workload by scanning
all claims, and assign the first candidate with the lowest workload. -/
def ClaimsProcessor._auto_assign_adjuster (p : ClaimsProcessor) (claim_id : String)
    (now : Int) : ClaimsProcessor :=
  match p.get_claim claim_id with
  | none => p
  | some claim =>
    if p.adjusters.isEmpty then p
    else
      let specialized := p.candidate_adjusters claim.claim_type
      let workloads :=
        specialized.map (fun kv => (kv.1, (p.get_claims_by_adjuster kv.1).length))
      match workloads with
      | [] => p
      | w :: ws =>
        let assigned := argminFirst w ws
        p.setClaim claim_id (fun c => c.assign_adjuster assigned "SYSTEM" now)

/-- Method `ClaimsProcessor.flag_for_investigation`: force status INVESTIGATING,
add a note, then reassign to the first adjuster whose (singular)
`specialization` key equals `"fraud"`, if any. -/
def ClaimsProcessor.flag_for_investigation (p : ClaimsProcessor)
    (claim_id reason flagged_by : String) (now : Int) : ClaimsProcessor × Bool :=
  match p.get_claim claim_id with
  | none => (p, false)
  | some _ =>
    let p1 := p.setClaim claim_id (fun c => (c.update_status "INVESTIGATING" flagged_by now).1)
    let p2 := p1.setClaim claim_id
      (fun c => c.add_note ("Flagged for investigation: " ++ reason) flagged_by now)
    let fraud_investigators :=
      (p.adjusters.filter (fun kv => kv.2.specialization == some "fraud")).map Prod.fst
    match fraud_investigators with
    | [] => (p2, true)
    | investigator_id :: _ =>
        (p2.setClaim claim_id (fun c => c.assign_adjuster investigator_id "SYSTEM" now), true)

/-- Method `ClaimsProcessor._validate_claim`: the three fraud heuristics — late
reporting, high value, multiple claims per policy (count `≥` threshold adds
a note; count `>` threshold additionally triggers
`flag_for_investigation`). -/
def ClaimsProcessor._validate_claim (p : ClaimsProcessor) (claim_id : String) (now : Int) :
    ClaimsProcessor :=
  match p.get_claim claim_id with
  | none => p
  | some claim =>
    let days_to_report := claim.reported_date - claim.incident_date
    let p1 :=
      if p.fraud_time_to_report < days_to_report then
        p.setClaim claim_id (fun c => c.add_note
          ("Late reporting detected: " ++ toString days_to_report ++ " days after incident")
          "SYSTEM" now)
      else p
    let p2 :=
      if p.fraud_value_threshold < claim.estimated_value then
        p1.setClaim claim_id (fun c => c.add_note
          ("High value claim detected: $" ++ fmtMoney claim.estimated_value) "SYSTEM" now)
      else p1
    let n := (p2.get_claims_by_policy claim.policy_number).length
    if p.fraud_multiple_claims ≤ n then
      let p3 := p2.setClaim claim_id (fun c => c.add_note
        ("Multiple claims detected for policy: " ++ toString n ++ " claims") "SYSTEM" now)
      if p.fraud_multiple_claims < n then
        (ClaimsProcessor.flag_for_investigation p3 claim_id
          ("Excessive claims on policy: " ++ toString n ++ " in the past year") "SYSTEM" now).1
      else p3
    else p2

/-- Method `ClaimsProcessor.create_claim`: construct the claim, store it, auto-assign
when enabled, then run validation; returns the new claim's id (the Python
method returns the stored `Claim` object itself, reachable via
`get_claim`). -/
def ClaimsProcessor.create_claim (p : ClaimsProcessor) (claim_id policy_number claim_type : String)
    (incident_date reported_date : Int) (description : String)
    (claimant_info : List (String × String)) (estimated_value : ℚ) (now : Int) :
    ClaimsProcessor × String :=
  let claim := Claim.create claim_id policy_number claim_type incident_date reported_date
    description claimant_info estimated_value now
  let p1 : ClaimsProcessor := { p with claims := p.claims ++ [(claim_id, claim)] }
  let p2 := if p1.auto_assignment then p1._auto_assign_adjuster claim_id now else p1
  let p3 := p2._validate_claim claim_id now
  (p3, claim_id)

/-- The settlement result dict of `ClaimsProcessor.calculate_settlement`;
keys absent from a given branch's dict are `none`. -/
structure SettlementResult where
  success : Bool
  error : Option String
  total_damages : Option ℚ
  deductible_applied : Option ℚ
  coverage_limit : Option ℚ
  settlement_amount : Option ℚ
  fully_covered : Option Bool
deriving DecidableEq

/-- Method `ClaimsProcessor.calculate_settlement`: total the damages, apply the
deductible (floored at 0) and the coverage limit; fail with
"Coverage not verified" (after the arithmetic) when the claim's coverage is
unverified; on success write the settlement as the claim's actual value. -/
def ClaimsProcessor.calculate_settlement (p : ClaimsProcessor) (claim_id : String)
    (damages : List (String × ℚ)) (deductible coverage_limit : ℚ) (now : Int) :
    ClaimsProcessor × SettlementResult :=
  match p.get_claim claim_id with
  | none =>
      (p, { success := false, error := some "Claim not found", total_damages := none,
            deductible_applied := none, coverage_limit := none, settlement_amount := none,
            fully_covered := none })
  | some claim =>
    let total_damages := (damages.map Prod.snd).sum
    let settlement_amount := max 0 (total_damages - deductible)
    let settlement_amount := min settlement_amount coverage_limit
    if ¬ claim.coverage_verified then
      (p, { success := false, error := some "Coverage not verified",
            total_damages := some total_damages, deductible_applied := none,
            coverage_limit := none, settlement_amount := some 0, fully_covered := none })
    else
      let p1 := p.setClaim claim_id (fun c => c.update_value settlement_amount false "SYSTEM" now)
      (p1, { success := true, error := none,
             total_damages := some total_damages,
             deductible_applied := some deductible,
             coverage_limit := some coverage_limit,
             settlement_amount := some settlement_amount,
             fully_covered := some (decide (total_damages ≤ settlement_amount + deductible)) })

/-- Function `validate_policy_number`: Python `re.match` of the pattern
`^[A-Z]{2}-\d{2}-\d{6}-[AHCFM]` — anchored at the start only, so trailing
characters are allowed; the ASCII classes model `[A-Z]` and `\d`. -/
def validate_policy_number (policy_number : String) : Bool :=
  match policy_number.toList with
  | c1 :: c2 :: h1 :: d1 :: d2 :: h2 :: e1 :: e2 :: e3 :: e4 :: e5 :: e6 :: h3 :: t :: _ =>
      c1.isUpper && c2.isUpper && h1 == '-' && d1.isDigit && d2.isDigit && h2 == '-' &&
      e1.isDigit && e2.isDigit && e3.isDigit && e4.isDigit && e5.isDigit && e6.isDigit &&
      h3 == '-' && ['A', 'H', 'C', 'F', 'M'].contains t
  | _ => false

/-- A prior-claim record in a policy holder's `claim_history`. -/
structure ClaimRecord where
  date : Int
  claim_kind : String
  amount : ℚ
  claim_status : String
deriving DecidableEq

/-- The `PolicyHolder` entity of `policy_calculator.py`; the `policies` list
(written only by `add_policy`, never read by the modelled computations) is
omitted. -/
structure PolicyHolder where
  name : String
  address : String
  dob : Int
  credit_score : Int
  claim_history : List ClaimRecord
deriving DecidableEq

/-- Constructor `PolicyHolder.__init__`: the credit score is clamped to [300, 850] via
`max(300, min(850, credit_score))`. -/
def PolicyHolder.create (name address : String) (dob : Int) (credit_score : Int)
    (claim_history : List ClaimRecord) : PolicyHolder :=
  { name := name, address := address, dob := dob,
    credit_score := max 300 (min 850 credit_score),
    claim_history := claim_history }

/-- Method `PolicyHolder.get_risk_factor`: credit tiering (≥750 → ×0.85,
≥650 → ×0.95, <600 → ×1.2, otherwise unchanged) then the recent-claims
surcharge over the trailing `3*365` days. -/
def PolicyHolder.get_risk_factor (ph : PolicyHolder) (now : Int) : ℚ :=
  let risk : ℚ := 1
  let risk :=
    if ph.credit_score ≥ 750 then risk * 0.85
    else if ph.credit_score ≥ 650 then risk * 0.95
    else if ph.credit_score < 600 then risk * 1.2
    else risk
  let three_years_ago := now - 3 * 365
  let recent_claims := ph.claim_history.filter (fun c => three_years_ago ≤ c.date)
  if 0 < recent_claims.length then risk * (1 + 0.1 * recent_claims.length) else risk

/-- Specification-side predicate for `validate_policy_number`, written from the
spec's words: the string starts with two uppercase letters, a hyphen, two
digits, a hyphen, six digits, a hyphen and one of the letters A, H, C, F, M;
trailing characters are allowed (prefix match). Compared against the
source-derived `validate_policy_number`. -/
def policy_number_spec (s : String) : Prop :=
  ∃ (u1 u2 d1 d2 e1 e2 e3 e4 e5 e6 t : Char) (rest : List Char),
    s.toList = u1 :: u2 :: '-' :: d1 :: d2 :: '-' :: e1 :: e2 :: e3 :: e4 :: e5 :: e6
        :: '-' :: t :: rest
    ∧ u1.isUpper = true ∧ u2.isUpper = true
    ∧ d1.isDigit = true ∧ d2.isDigit = true
    ∧ e1.isDigit = true ∧ e2.isDigit = true ∧ e3.isDigit = true ∧ e4.isDigit = true
    ∧ e5.isDigit = true ∧ e6.isDigit = true
    ∧ (t = 'A' ∨ t = 'H' ∨ t = 'C' ∨ t = 'F' ∨ t = 'M')

/-! ### Concrete instances used by the witnesses and counterexample -/

/-- A concrete claim whose coverage has been verified. -/
def exClaimV : Claim :=
  { Claim.create "c1" "CA-23-123456-H" "HOME" 0 1 "water damage" [("state", "CA")] 100 2 with
    coverage_verified := true }

/-- A concrete claim whose coverage is not verified. -/
def exClaimU : Claim :=
  Claim.create "c1" "CA-23-123456-H" "HOME" 0 1 "water damage" [("state", "CA")] 100 2

/-- A concrete claim already assigned to adjuster `"A0"`. -/
def exClaimA0 : Claim :=
  { Claim.create "c1" "CA-23-123456-H" "HOME" 0 1 "water damage" [("state", "CA")] 100 2 with
    assigned_adjuster := some "A0" }

/-- A processor holding the coverage-verified claim. -/
def exProcV : ClaimsProcessor :=
  { claims := [("c1", exClaimV)], auto_assignment := true, adjusters := [],
    fraud_time_to_report := 30, fraud_value_threshold := 50000, fraud_multiple_claims := 3 }

/-- A processor holding the unverified claim. -/
def exProcU : ClaimsProcessor :=
  { claims := [("c1", exClaimU)], auto_assignment := true, adjusters := [],
    fraud_time_to_report := 30, fraud_value_threshold := 50000, fraud_multiple_claims := 3 }

/-- An adjuster profile of the documented shape whose `specializations` set
contains `"fraud"` (no singular `specialization` key). -/
def exAdjFraud : Adjuster :=
  { name := "Fran", specializations := ["fraud"], specialization := none, states := ["CA"] }

/-- A processor with a fraud-specialised adjuster (documented profile shape)
and a claim already assigned to `"A0"`. -/
def exProcFraud : ClaimsProcessor :=
  { claims := [("c1", exClaimA0)], auto_assignment := true,
    adjusters := [("FRD", exAdjFraud)],
    fraud_time_to_report := 30, fraud_value_threshold := 50000, fraud_multiple_claims := 3 }

/-- Two HOME-specialised adjusters with zero workload. -/
def exAdjHomeA : Adjuster :=
  { name := "Alice", specializations := ["HOME"], specialization := none, states := ["CA"] }

/-- Second HOME-specialised adjuster. -/
def exAdjHomeB : Adjuster :=
  { name := "Bob", specializations := ["HOME"], specialization := none, states := ["CA"] }

/-- A fresh processor with the two HOME adjusters in table order A1, A2. -/
def exProcTwoAdj : ClaimsProcessor :=
  { claims := [], auto_assignment := true,
    adjusters := [("A1", exAdjHomeA), ("A2", exAdjHomeB)],
    fraud_time_to_report := 30, fraud_value_threshold := 50000, fraud_multiple_claims := 3 }

/-- A processor that already holds two claims on policy "P1" (threshold 3). -/
def exProcTwoClaims : ClaimsProcessor :=
  { claims := [("a1", Claim.create "a1" "P1" "HOME" 0 1 "d1" [] 100 2),
               ("a2", Claim.create "a2" "P1" "HOME" 0 1 "d2" [] 100 2)],
    auto_assignment := false, adjusters := [],
    fraud_time_to_report := 30, fraud_value_threshold := 50000, fraud_multiple_claims := 3 }

end ClaimsLib

namespace ClaimsLib

/-! ### Projection lemmas for the `Claim` operations -/

@[simp] theorem add_note_claim_id (c : Claim) (s u : String) (n : Int) :
    (c.add_note s u n).claim_id = c.claim_id := rfl

@[simp] theorem add_note_policy_number (c : Claim) (s u : String) (n : Int) :
    (c.add_note s u n).policy_number = c.policy_number := rfl

@[simp] theorem add_note_claim_type (c : Claim) (s u : String) (n : Int) :
    (c.add_note s u n).claim_type = c.claim_type := rfl

@[simp] theorem add_note_status (c : Claim) (s u : String) (n : Int) :
    (c.add_note s u n).status = c.status := rfl

@[simp] theorem add_note_assigned (c : Claim) (s u : String) (n : Int) :
    (c.add_note s u n).assigned_adjuster = c.assigned_adjuster := rfl

@[simp] theorem add_note_coverage (c : Claim) (s u : String) (n : Int) :
    (c.add_note s u n).coverage_verified = c.coverage_verified := rfl

@[simp] theorem add_note_actual_value (c : Claim) (s u : String) (n : Int) :
    (c.add_note s u n).actual_value = c.actual_value := rfl

@[simp] theorem add_note_notes (c : Claim) (s u : String) (n : Int) :
    (c.add_note s u n).notes
      = c.notes ++ [{ content := s, created_by := u, timestamp := n }] := rfl

@[simp] theorem add_note_last_updated (c : Claim) (s u : String) (n : Int) :
    (c.add_note s u n).last_updated = n := rfl

@[simp] theorem update_status_fst_claim_id (c : Claim) (s u : String) (n : Int) :
    ((c.update_status s u n).1).claim_id = c.claim_id := by
  unfold Claim.update_status; split <;> rfl

@[simp] theorem update_status_fst_policy_number (c : Claim) (s u : String) (n : Int) :
    ((c.update_status s u n).1).policy_number = c.policy_number := by
  unfold Claim.update_status; split <;> rfl

@[simp] theorem update_status_fst_claim_type (c : Claim) (s u : String) (n : Int) :
    ((c.update_status s u n).1).claim_type = c.claim_type := by
  unfold Claim.update_status; split <;> rfl

@[simp] theorem update_status_fst_assigned (c : Claim) (s u : String) (n : Int) :
    ((c.update_status s u n).1).assigned_adjuster = c.assigned_adjuster := by
  unfold Claim.update_status; split <;> rfl

@[simp] theorem update_status_fst_coverage (c : Claim) (s u : String) (n : Int) :
    ((c.update_status s u n).1).coverage_verified = c.coverage_verified := by
  unfold Claim.update_status; split <;> rfl

theorem update_status_status_of_contains (c : Claim) (s u : String) (n : Int)
    (h : (CLAIM_STATUS_CODES.map Prod.fst).contains s = true) :
    ((c.update_status s u n).1).status = s := by
  unfold Claim.update_status; rw [if_pos h]; rfl

theorem update_status_notes_of_contains (c : Claim) (s u : String) (n : Int)
    (h : (CLAIM_STATUS_CODES.map Prod.fst).contains s = true) :
    ((c.update_status s u n).1).notes
      = c.notes ++ [{ content := "Status changed from " ++ c.status ++ " to " ++ s,
                      created_by := u, timestamp := n }] := by
  unfold Claim.update_status; rw [if_pos h]; rfl

@[simp] theorem assign_adjuster_claim_id (c : Claim) (a u : String) (n : Int) :
    (c.assign_adjuster a u n).claim_id = c.claim_id := by
  unfold Claim.assign_adjuster; cases c.assigned_adjuster <;> rfl

@[simp] theorem assign_adjuster_policy_number (c : Claim) (a u : String) (n : Int) :
    (c.assign_adjuster a u n).policy_number = c.policy_number := by
  unfold Claim.assign_adjuster; cases c.assigned_adjuster <;> rfl

@[simp] theorem assign_adjuster_claim_type (c : Claim) (a u : String) (n : Int) :
    (c.assign_adjuster a u n).claim_type = c.claim_type := by
  unfold Claim.assign_adjuster; cases c.assigned_adjuster <;> rfl

@[simp] theorem assign_adjuster_coverage (c : Claim) (a u : String) (n : Int) :
    (c.assign_adjuster a u n).coverage_verified = c.coverage_verified := by
  unfold Claim.assign_adjuster; cases c.assigned_adjuster <;> rfl

@[simp] theorem assign_adjuster_assigned (c : Claim) (a u : String) (n : Int) :
    (c.assign_adjuster a u n).assigned_adjuster = some a := by
  unfold Claim.assign_adjuster; cases c.assigned_adjuster <;> rfl

theorem assign_adjuster_status_of_none (c : Claim) (a u : String) (n : Int)
    (h : c.assigned_adjuster = none) :
    (c.assign_adjuster a u n).status = "ASSIGNED" := by
  unfold Claim.assign_adjuster; rw [h]; rfl

theorem assign_adjuster_status_of_some (c : Claim) (o a u : String) (n : Int)
    (h : c.assigned_adjuster = some o) :
    (c.assign_adjuster a u n).status = c.status := by
  unfold Claim.assign_adjuster; rw [h]; rfl

@[simp] theorem update_value_claim_id (c : Claim) (v : ℚ) (b : Bool) (u : String) (n : Int) :
    (c.update_value v b u n).claim_id = c.claim_id := by
  unfold Claim.update_value; cases b <;> rfl

@[simp] theorem update_value_policy_number (c : Claim) (v : ℚ) (b : Bool) (u : String) (n : Int) :
    (c.update_value v b u n).policy_number = c.policy_number := by
  unfold Claim.update_value; cases b <;> rfl

@[simp] theorem update_value_status (c : Claim) (v : ℚ) (b : Bool) (u : String) (n : Int) :
    (c.update_value v b u n).status = c.status := by
  unfold Claim.update_value; cases b <;> rfl

@[simp] theorem update_value_assigned (c : Claim) (v : ℚ) (b : Bool) (u : String) (n : Int) :
    (c.update_value v b u n).assigned_adjuster = c.assigned_adjuster := by
  unfold Claim.update_value; cases b <;> rfl

@[simp] theorem update_value_actual_false (c : Claim) (v : ℚ) (u : String) (n : Int) :
    (c.update_value v false u n).actual_value = v := rfl

@[simp] theorem add_document_claim_id (c : Claim) (s t r u : String) (n : Int) :
    (c.add_document s t r u n).claim_id = c.claim_id := rfl

@[simp] theorem add_document_policy_number (c : Claim) (s t r u : String) (n : Int) :
    (c.add_document s t r u n).policy_number = c.policy_number := rfl

@[simp] theorem verify_coverage_claim_id (c : Claim) (b : Bool) (r u : String) (n : Int) :
    (c.verify_coverage b r u n).claim_id = c.claim_id := by
  unfold Claim.verify_coverage; cases b <;> rfl

@[simp] theorem verify_coverage_policy_number (c : Claim) (b : Bool) (r u : String) (n : Int) :
    (c.verify_coverage b r u n).policy_number = c.policy_number := by
  unfold Claim.verify_coverage; cases b <;> rfl

/-! ### Association-list lemmas for the processor's claim map -/

theorem find?_map_upd_self (l : List (String × Claim)) (i : String) (f : Claim → Claim) :
    (l.map (fun kv => if kv.1 == i then (kv.1, f kv.2) else kv)).find? (fun kv => kv.1 == i)
      = (l.find? (fun kv => kv.1 == i)).map (fun kv => (kv.1, f kv.2)) := by
  induction l with
  | nil => rfl
  | cons hd tl ih =>
    by_cases h1 : hd.1 = i
    · have hb : (hd.1 == i) = true := by simp [h1]
      simp only [List.map_cons, List.find?_cons, hb, if_true]
      simp [hb]
    · have hb : (hd.1 == i) = false := by simp [h1]
      simp only [List.map_cons, List.find?_cons, hb, if_false]
      simpa [hb] using ih

theorem find?_map_upd_other (l : List (String × Claim)) (i j : String) (f : Claim → Claim)
    (h : j ≠ i) :
    (l.map (fun kv => if kv.1 == i then (kv.1, f kv.2) else kv)).find? (fun kv => kv.1 == j)
      = l.find? (fun kv => kv.1 == j) := by
  induction l with
  | nil => rfl
  | cons hd tl ih =>
    by_cases h1 : hd.1 = i
    · have hb : (hd.1 == i) = true := by simp [h1]
      have hbj : (hd.1 == j) = false := by simp [h1]; exact fun he => h he.symm
      simp only [List.map_cons, List.find?_cons, hb, if_true, hbj]
      simpa [hb, hbj] using ih
    · have hb : (hd.1 == i) = false := by simp [h1]
      simp only [List.map_cons, List.find?_cons, hb, if_false]
      by_cases h2 : hd.1 = j
      · simp [h2]
      · have hbj : (hd.1 == j) = false := by simp [h2]
        simpa [hbj] using ih

/-! ### Processor map lemmas -/

@[simp] theorem setClaim_adjusters (p : ClaimsProcessor) (i : String) (f : Claim → Claim) :
    (p.setClaim i f).adjusters = p.adjusters := rfl

@[simp] theorem setClaim_auto_assignment (p : ClaimsProcessor) (i : String) (f : Claim → Claim) :
    (p.setClaim i f).auto_assignment = p.auto_assignment := rfl

@[simp] theorem setClaim_fraud_multiple (p : ClaimsProcessor) (i : String) (f : Claim → Claim) :
    (p.setClaim i f).fraud_multiple_claims = p.fraud_multiple_claims := rfl

@[simp] theorem setClaim_fraud_time (p : ClaimsProcessor) (i : String) (f : Claim → Claim) :
    (p.setClaim i f).fraud_time_to_report = p.fraud_time_to_report := rfl

@[simp] theorem setClaim_fraud_value (p : ClaimsProcessor) (i : String) (f : Claim → Claim) :
    (p.setClaim i f).fraud_value_threshold = p.fraud_value_threshold := rfl

theorem getClaim_setClaim_self (p : ClaimsProcessor) (i : String) (f : Claim → Claim) :
    (p.setClaim i f).get_claim i = (p.get_claim i).map f := by
  unfold ClaimsProcessor.get_claim ClaimsProcessor.setClaim
  rw [find?_map_upd_self]
  cases p.claims.find? (fun kv => kv.1 == i) <;> rfl

theorem getClaim_setClaim_other (p : ClaimsProcessor) (i j : String) (f : Claim → Claim)
    (h : j ≠ i) :
    (p.setClaim i f).get_claim j = p.get_claim j := by
  unfold ClaimsProcessor.get_claim ClaimsProcessor.setClaim
  rw [find?_map_upd_other _ _ _ _ h]

theorem keys_setClaim (p : ClaimsProcessor) (i : String) (f : Claim → Claim) :
    (p.setClaim i f).claims.map Prod.fst = p.claims.map Prod.fst := by
  unfold ClaimsProcessor.setClaim
  simp only [List.map_map]
  congr 1
  funext kv
  by_cases h : kv.1 = i <;> simp [h]

theorem length_filter_map_upd (l : List (String × Claim)) (i : String) (f : Claim → Claim)
    (q : Claim → Bool) (hf : ∀ c, q (f c) = q c) :
    (((l.map (fun kv => if kv.1 == i then (kv.1, f kv.2) else kv)).map Prod.snd).filter q).length
      = ((l.map Prod.snd).filter q).length := by
  induction l with
  | nil => rfl
  | cons hd tl ih =>
    simp only [List.map_cons]
    by_cases h1 : hd.1 = i
    · have hb : (hd.1 == i) = true := by simp [h1]
      rw [if_pos hb]
      simp only [List.map_cons, List.filter_cons, hf]
      split <;> simp only [List.length_cons, ih]
    · have hb : ¬ ((hd.1 == i) = true) := by simp [h1]
      rw [if_neg hb]
      simp only [List.map_cons, List.filter_cons]
      split <;> simp only [List.length_cons, ih]

theorem count_policy_setClaim (p : ClaimsProcessor) (i : String) (f : Claim → Claim)
    (pol : String) (hf : ∀ c, (f c).policy_number = c.policy_number) :
    ((p.setClaim i f).get_claims_by_policy pol).length
      = (p.get_claims_by_policy pol).length := by
  unfold ClaimsProcessor.get_claims_by_policy ClaimsProcessor.setClaim
  exact length_filter_map_upd _ _ _ _ (fun c => by simp [hf])

theorem count_adjuster_setClaim (p : ClaimsProcessor) (i : String) (f : Claim → Claim)
    (a : String) (hf : ∀ c, (f c).assigned_adjuster = c.assigned_adjuster) :
    ((p.setClaim i f).get_claims_by_adjuster a).length
      = (p.get_claims_by_adjuster a).length := by
  unfold ClaimsProcessor.get_claims_by_adjuster ClaimsProcessor.setClaim
  exact length_filter_map_upd _ _ _ _ (fun c => by simp [hf])

theorem find?_append_fresh (l : List (String × Claim)) (i : String) (c : Claim)
    (h : ∀ kv ∈ l, kv.1 ≠ i) :
    (l ++ [(i, c)]).find? (fun kv => kv.1 == i) = some (i, c) := by
  induction l with
  | nil => simp
  | cons hd tl ih =>
    have hb : (hd.1 == i) = false := by simp; exact h hd (by simp)
    simp only [List.cons_append, List.find?_cons, hb]
    exact ih (fun kv hkv => h kv (by simp [hkv]))

theorem find?_append_other (l : List (String × Claim)) (i : String) (c : Claim) (j : String)
    (h : j ≠ i) :
    (l ++ [(i, c)]).find? (fun kv => kv.1 == j) = l.find? (fun kv => kv.1 == j) := by
  induction l with
  | nil =>
    have hb : ((i, c).1 == j) = false := by simp; exact fun he => h he.symm
    simp only [List.nil_append, List.find?_nil, List.find?_cons, hb]
  | cons hd tl ih =>
    by_cases h2 : hd.1 = j
    · have hb : (hd.1 == j) = true := by simp [h2]
      simp only [List.cons_append, List.find?_cons, hb]
    · have hb : (hd.1 == j) = false := by simp [h2]
      simp only [List.cons_append, List.find?_cons, hb]
      exact ih

theorem getClaim_append_self (p : ClaimsProcessor) (i : String) (c : Claim)
    (h : ∀ kv ∈ p.claims, kv.1 ≠ i) :
    ({ p with claims := p.claims ++ [(i, c)] } : ClaimsProcessor).get_claim i = some c := by
  unfold ClaimsProcessor.get_claim
  rw [show ({ p with claims := p.claims ++ [(i, c)] } : ClaimsProcessor).claims
        = p.claims ++ [(i, c)] from rfl]
  rw [find?_append_fresh _ _ _ h]
  rfl

theorem getClaim_append_other (p : ClaimsProcessor) (i : String) (c : Claim) (j : String)
    (h : j ≠ i) :
    ({ p with claims := p.claims ++ [(i, c)] } : ClaimsProcessor).get_claim j = p.get_claim j := by
  unfold ClaimsProcessor.get_claim
  rw [show ({ p with claims := p.claims ++ [(i, c)] } : ClaimsProcessor).claims
        = p.claims ++ [(i, c)] from rfl]
  rw [find?_append_other _ _ _ _ h]

theorem count_policy_append (p : ClaimsProcessor) (i : String) (c : Claim) (pol : String) :
    (({ p with claims := p.claims ++ [(i, c)] } : ClaimsProcessor).get_claims_by_policy
        pol).length
      = (p.get_claims_by_policy pol).length
        + (if c.policy_number == pol then 1 else 0) := by
  unfold ClaimsProcessor.get_claims_by_policy
  simp only [List.map_append, List.map_cons, List.map_nil, List.filter_append,
    List.length_append]
  congr 1
  rw [List.filter_cons]
  split <;> simp

theorem count_adjuster_append_none (p : ClaimsProcessor) (i : String) (c : Claim) (a : String)
    (h : c.assigned_adjuster = none) :
    (({ p with claims := p.claims ++ [(i, c)] } : ClaimsProcessor).get_claims_by_adjuster
        a).length
      = (p.get_claims_by_adjuster a).length := by
  unfold ClaimsProcessor.get_claims_by_adjuster
  simp [List.filter_append, List.filter_cons, h]

theorem keys_append (p : ClaimsProcessor) (i : String) (c : Claim) :
    ({ p with claims := p.claims ++ [(i, c)] } : ClaimsProcessor).claims.map Prod.fst
      = p.claims.map Prod.fst ++ [i] := by
  simp

/-! ### First-minimum fold lemma (Python `min(d, key=d.get)`) -/

theorem foldl_argmin_spec (ws : List (String × Nat)) (w0 : String × Nat) :
    (ws.foldl (fun best kv => if kv.2 < best.2 then kv else best) w0) ∈ w0 :: ws
    ∧ (ws.foldl (fun best kv => if kv.2 < best.2 then kv else best) w0).2 ≤ w0.2
    ∧ ∀ kv ∈ ws, (ws.foldl (fun best kv => if kv.2 < best.2 then kv else best) w0).2 ≤ kv.2 := by
  induction ws generalizing w0 with
  | nil => simp
  | cons hd tl ih =>
    simp only [List.foldl_cons]
    by_cases h : hd.2 < w0.2
    · obtain ⟨m, b1, b2⟩ := ih hd
      rw [if_pos h]
      refine ⟨?_, le_trans b1 (le_of_lt h), ?_⟩
      · rcases List.mem_cons.mp m with h' | h'
        · exact List.mem_cons.mpr (Or.inr (List.mem_cons.mpr (Or.inl h')))
        · exact List.mem_cons.mpr (Or.inr (List.mem_cons.mpr (Or.inr h')))
      · intro kv hkv
        rcases List.mem_cons.mp hkv with h' | h'
        · rw [h']; exact b1
        · exact b2 kv h'
    · obtain ⟨m, b1, b2⟩ := ih w0
      rw [if_neg h]
      refine ⟨?_, b1, ?_⟩
      · rcases List.mem_cons.mp m with h' | h'
        · exact List.mem_cons.mpr (Or.inl h')
        · exact List.mem_cons.mpr (Or.inr (List.mem_cons.mpr (Or.inr h')))
      · intro kv hkv
        rcases List.mem_cons.mp hkv with h' | h'
        · rw [h']; exact le_trans b1 (not_lt.mp h)
        · exact b2 kv h'

/-! ### Specialised count-preservation simp lemmas -/

@[simp] theorem count_policy_setClaim_note (p : ClaimsProcessor) (i : String) (s u : String)
    (n : Int) (pol : String) :
    ((p.setClaim i (fun c => c.add_note s u n)).get_claims_by_policy pol).length
      = (p.get_claims_by_policy pol).length :=
  count_policy_setClaim _ _ _ _ (fun c => by simp)

@[simp] theorem count_policy_setClaim_status (p : ClaimsProcessor) (i : String) (s u : String)
    (n : Int) (pol : String) :
    ((p.setClaim i (fun c => (c.update_status s u n).1)).get_claims_by_policy pol).length
      = (p.get_claims_by_policy pol).length :=
  count_policy_setClaim _ _ _ _ (fun c => by simp)

@[simp] theorem count_policy_setClaim_assign (p : ClaimsProcessor) (i : String) (a u : String)
    (n : Int) (pol : String) :
    ((p.setClaim i (fun c => c.assign_adjuster a u n)).get_claims_by_policy pol).length
      = (p.get_claims_by_policy pol).length :=
  count_policy_setClaim _ _ _ _ (fun c => by simp)

@[simp] theorem count_policy_setClaim_value (p : ClaimsProcessor) (i : String) (v : ℚ)
    (b : Bool) (u : String) (n : Int) (pol : String) :
    ((p.setClaim i (fun c => c.update_value v b u n)).get_claims_by_policy pol).length
      = (p.get_claims_by_policy pol).length :=
  count_policy_setClaim _ _ _ _ (fun c => by simp)

/-! ### Projection through setClaim -/

theorem proj_getClaim_setClaim {α : Type} (p : ClaimsProcessor) (i j : String)
    (f : Claim → Claim) (g : Claim → α) (hf : ∀ c, g (f c) = g c) :
    ((p.setClaim i f).get_claim j).map g = (p.get_claim j).map g := by
  by_cases h : j = i
  · subst h
    rw [getClaim_setClaim_self]
    cases p.get_claim j <;> simp [hf]
  · rw [getClaim_setClaim_other _ _ _ _ h]

/-! ### flag_for_investigation lemmas -/

theorem flag_getClaim_self (p : ClaimsProcessor) (i reason fb : String) (now : Int) (c : Claim)
    (hc : p.get_claim i = some c)
    (hinv : p.adjusters.filter (fun kv => kv.2.specialization == some "fraud") = []) :
    ((p.flag_for_investigation i reason fb now).1).get_claim i
      = some (((c.update_status "INVESTIGATING" fb now).1).add_note
          ("Flagged for investigation: " ++ reason) fb now) := by
  unfold ClaimsProcessor.flag_for_investigation
  simp only [hc, hinv, List.map_nil]
  rw [getClaim_setClaim_self, getClaim_setClaim_self, hc]
  rfl

theorem count_policy_flag (p : ClaimsProcessor) (i r b : String) (now : Int) (pol : String) :
    (((p.flag_for_investigation i r b now).1).get_claims_by_policy pol).length
      = (p.get_claims_by_policy pol).length := by
  unfold ClaimsProcessor.flag_for_investigation
  cases hc : p.get_claim i with
  | none => rfl
  | some c =>
    cases hfi :
        (p.adjusters.filter (fun kv => kv.2.specialization == some "fraud")).map Prod.fst with
    | nil => simp only [hfi, count_policy_setClaim_note, count_policy_setClaim_status]
    | cons inv rest =>
        simp only [hfi, count_policy_setClaim_assign, count_policy_setClaim_note,
          count_policy_setClaim_status]

theorem adjusters_flag (p : ClaimsProcessor) (i r b : String) (now : Int) :
    ((p.flag_for_investigation i r b now).1).adjusters = p.adjusters := by
  unfold ClaimsProcessor.flag_for_investigation
  cases hc : p.get_claim i with
  | none => rfl
  | some c =>
    cases hfi :
        (p.adjusters.filter (fun kv => kv.2.specialization == some "fraud")).map Prod.fst with
    | nil => simp only [hfi]; rfl
    | cons inv rest => simp only [hfi]; rfl

theorem fraud_multiple_flag (p : ClaimsProcessor) (i r b : String) (now : Int) :
    ((p.flag_for_investigation i r b now).1).fraud_multiple_claims
      = p.fraud_multiple_claims := by
  unfold ClaimsProcessor.flag_for_investigation
  cases hc : p.get_claim i with
  | none => rfl
  | some c =>
    cases hfi :
        (p.adjusters.filter (fun kv => kv.2.specialization == some "fraud")).map Prod.fst with
    | nil => simp only [hfi]; rfl
    | cons inv rest => simp only [hfi]; rfl

theorem keys_flag (p : ClaimsProcessor) (i r b : String) (now : Int) :
    ((p.flag_for_investigation i r b now).1).claims.map Prod.fst
      = p.claims.map Prod.fst := by
  unfold ClaimsProcessor.flag_for_investigation
  cases hc : p.get_claim i with
  | none => rfl
  | some c =>
    cases hfi :
        (p.adjusters.filter (fun kv => kv.2.specialization == some "fraud")).map Prod.fst with
    | nil => simp only [hfi]; rw [keys_setClaim, keys_setClaim]
    | cons inv rest => simp only [hfi]; rw [keys_setClaim, keys_setClaim, keys_setClaim]

theorem assigned_flag (p : ClaimsProcessor) (i r b : String) (now : Int) (j : String)
    (hinv : p.adjusters.filter (fun kv => kv.2.specialization == some "fraud") = []) :
    (((p.flag_for_investigation i r b now).1).get_claim j).map Claim.assigned_adjuster
      = (p.get_claim j).map Claim.assigned_adjuster := by
  unfold ClaimsProcessor.flag_for_investigation
  cases hc : p.get_claim i with
  | none => rfl
  | some c =>
    simp only [hc, hinv, List.map_nil]
    rw [proj_getClaim_setClaim _ _ _ _ _ (fun cc => by simp),
        proj_getClaim_setClaim _ _ _ _ _ (fun cc => by simp)]

/-! ### A guarded note step of `_validate_claim` -/

theorem if_note_step (q : ClaimsProcessor) (cond : Prop) [Decidable cond] (i s u : String)
    (n : Int) (c : Claim) (hq : q.get_claim i = some c) :
    ∃ c1, ((if cond then q.setClaim i (fun cc => cc.add_note s u n) else q).get_claim i
        = some c1)
      ∧ c1.status = c.status
      ∧ c1.assigned_adjuster = c.assigned_adjuster
      ∧ c1.policy_number = c.policy_number
      ∧ (∀ pol, ((if cond then q.setClaim i (fun cc => cc.add_note s u n)
              else q).get_claims_by_policy pol).length
            = (q.get_claims_by_policy pol).length)
      ∧ ((if cond then q.setClaim i (fun cc => cc.add_note s u n) else q).adjusters
          = q.adjusters) := by
  by_cases h : cond
  · refine ⟨c.add_note s u n, ?_, by simp, by simp, by simp, ?_, ?_⟩
    · rw [if_pos h, getClaim_setClaim_self, hq]; rfl
    · intro pol; rw [if_pos h, count_policy_setClaim_note]
    · rw [if_pos h, setClaim_adjusters]
  · refine ⟨c, ?_, rfl, rfl, rfl, ?_, ?_⟩
    · rw [if_neg h]; exact hq
    · intro pol; rw [if_neg h]
    · rw [if_neg h]

/-! ### Behaviour of `_validate_claim` at the multiple-claims threshold -/

theorem flag_after_setClaim_note (q : ClaimsProcessor) (i s r fb : String) (now : Int)
    (c : Claim) (hq : q.get_claim i = some c)
    (hinv : q.adjusters.filter (fun kv => kv.2.specialization == some "fraud") = []) :
    ∃ c', (((q.setClaim i (fun cc => cc.add_note s "SYSTEM" now)).flag_for_investigation
        i r fb now).1).get_claim i = some c'
      ∧ c'.status = "INVESTIGATING" := by
  have hc3 : (q.setClaim i (fun cc => cc.add_note s "SYSTEM" now)).get_claim i
      = some (c.add_note s "SYSTEM" now) := by
    rw [getClaim_setClaim_self, hq]; rfl
  have hinv3 : (q.setClaim i (fun cc => cc.add_note s "SYSTEM" now)).adjusters.filter
      (fun kv => kv.2.specialization == some "fraud") = [] := by
    rw [setClaim_adjusters]; exact hinv
  rw [flag_getClaim_self _ _ _ _ _ _ hc3 hinv3]
  refine ⟨_, rfl, ?_⟩
  rw [add_note_status, update_status_status_of_contains _ _ _ _ (by decide)]

theorem validate_no_flag_spec (p : ClaimsProcessor) (i : String) (now : Int) (c : Claim)
    (hc : p.get_claim i = some c)
    (hcount : (p.get_claims_by_policy c.policy_number).length = p.fraud_multiple_claims) :
    ∃ c', (p._validate_claim i now).get_claim i = some c'
      ∧ c'.status = c.status
      ∧ c'.assigned_adjuster = c.assigned_adjuster
      ∧ ({ content := "Multiple claims detected for policy: "
              ++ toString p.fraud_multiple_claims ++ " claims",
           created_by := "SYSTEM", timestamp := now } : Note) ∈ c'.notes := by
  unfold ClaimsProcessor._validate_claim
  simp only [hc]
  obtain ⟨c1, h1get, h1st, h1as, h1pol, h1cnt, h1adj⟩ :=
    if_note_step p (p.fraud_time_to_report < c.reported_date - c.incident_date) i
      ("Late reporting detected: " ++ toString (c.reported_date - c.incident_date)
        ++ " days after incident") "SYSTEM" now c hc
  obtain ⟨c2, h2get, h2st, h2as, h2pol, h2cnt, h2adj⟩ :=
    if_note_step _ (p.fraud_value_threshold < c.estimated_value) i
      ("High value claim detected: $" ++ fmtMoney c.estimated_value) "SYSTEM" now c1 h1get
  rw [h2cnt, h1cnt, hcount, if_pos (le_refl p.fraud_multiple_claims),
    if_neg (lt_irrefl p.fraud_multiple_claims)]
  rw [getClaim_setClaim_self, h2get]
  exact ⟨_, rfl, by simp [h2st, h1st], by simp [h2as, h1as], by simp⟩

theorem validate_flag_spec (p : ClaimsProcessor) (i : String) (now : Int) (c : Claim)
    (hc : p.get_claim i = some c)
    (hcount : (p.get_claims_by_policy c.policy_number).length = p.fraud_multiple_claims + 1)
    (hinv : p.adjusters.filter (fun kv => kv.2.specialization == some "fraud") = []) :
    ∃ c', (p._validate_claim i now).get_claim i = some c'
      ∧ c'.status = "INVESTIGATING" := by
  unfold ClaimsProcessor._validate_claim
  simp only [hc]
  obtain ⟨c1, h1get, h1st, h1as, h1pol, h1cnt, h1adj⟩ :=
    if_note_step p (p.fraud_time_to_report < c.reported_date - c.incident_date) i
      ("Late reporting detected: " ++ toString (c.reported_date - c.incident_date)
        ++ " days after incident") "SYSTEM" now c hc
  obtain ⟨c2, h2get, h2st, h2as, h2pol, h2cnt, h2adj⟩ :=
    if_note_step _ (p.fraud_value_threshold < c.estimated_value) i
      ("High value claim detected: $" ++ fmtMoney c.estimated_value) "SYSTEM" now c1 h1get
  rw [h2cnt, h1cnt, hcount, if_pos (Nat.le_succ p.fraud_multiple_claims),
    if_pos (Nat.lt_succ_self p.fraud_multiple_claims)]
  refine flag_after_setClaim_note _ _ _ _ _ _ _ h2get ?_
  rw [h2adj, h1adj]; exact hinv

/-! ### `_auto_assign_adjuster` lemmas -/

theorem auto_assign_cases (p : ClaimsProcessor) (i : String) (now : Int) :
    p._auto_assign_adjuster i now = p
    ∨ ∃ a, p._auto_assign_adjuster i now
        = p.setClaim i (fun c => c.assign_adjuster a "SYSTEM" now) := by
  unfold ClaimsProcessor._auto_assign_adjuster
  cases hc : p.get_claim i with
  | none => exact Or.inl rfl
  | some c =>
    dsimp only
    by_cases he : p.adjusters.isEmpty = true
    · rw [if_pos he]
      exact Or.inl rfl
    · rw [if_neg he]
      cases hw : (p.candidate_adjusters c.claim_type).map
          (fun kv => (kv.1, (p.get_claims_by_adjuster kv.1).length)) with
      | nil => simp only [hw]; exact Or.inl (by trivial)
      | cons w ws => simp only [hw]; exact Or.inr ⟨argminFirst w ws, rfl⟩

theorem adjusters_auto (p : ClaimsProcessor) (i : String) (now : Int) :
    (p._auto_assign_adjuster i now).adjusters = p.adjusters := by
  rcases auto_assign_cases p i now with h | ⟨a, h⟩ <;> rw [h]
  rw [setClaim_adjusters]

theorem auto_assignment_auto (p : ClaimsProcessor) (i : String) (now : Int) :
    (p._auto_assign_adjuster i now).auto_assignment = p.auto_assignment := by
  rcases auto_assign_cases p i now with h | ⟨a, h⟩ <;> rw [h]
  rw [setClaim_auto_assignment]

theorem fraud_multiple_auto (p : ClaimsProcessor) (i : String) (now : Int) :
    (p._auto_assign_adjuster i now).fraud_multiple_claims = p.fraud_multiple_claims := by
  rcases auto_assign_cases p i now with h | ⟨a, h⟩ <;> rw [h]
  rw [setClaim_fraud_multiple]

theorem count_policy_auto (p : ClaimsProcessor) (i : String) (now : Int) (pol : String) :
    ((p._auto_assign_adjuster i now).get_claims_by_policy pol).length
      = (p.get_claims_by_policy pol).length := by
  rcases auto_assign_cases p i now with h | ⟨a, h⟩ <;> rw [h]
  rw [count_policy_setClaim_assign]

theorem keys_auto (p : ClaimsProcessor) (i : String) (now : Int) :
    (p._auto_assign_adjuster i now).claims.map Prod.fst = p.claims.map Prod.fst := by
  rcases auto_assign_cases p i now with h | ⟨a, h⟩ <;> rw [h]
  rw [keys_setClaim]

/-! ### `_validate_claim` preservation lemmas -/

theorem count_policy_validate (p : ClaimsProcessor) (i : String) (now : Int) (pol : String) :
    ((p._validate_claim i now).get_claims_by_policy pol).length
      = (p.get_claims_by_policy pol).length := by
  unfold ClaimsProcessor._validate_claim
  cases hc : p.get_claim i with
  | none => rfl
  | some c =>
    dsimp only
    split_ifs <;>
      simp only [count_policy_flag, count_policy_setClaim_note]

theorem adjusters_validate (p : ClaimsProcessor) (i : String) (now : Int) :
    (p._validate_claim i now).adjusters = p.adjusters := by
  unfold ClaimsProcessor._validate_claim
  cases hc : p.get_claim i with
  | none => rfl
  | some c =>
    dsimp only
    split_ifs <;>
      simp only [adjusters_flag, setClaim_adjusters]

theorem auto_assignment_validate (p : ClaimsProcessor) (i : String) (now : Int) :
    (p._validate_claim i now).auto_assignment = p.auto_assignment := by
  unfold ClaimsProcessor._validate_claim
  cases hc : p.get_claim i with
  | none => rfl
  | some c =>
    have hfl : ∀ (q : ClaimsProcessor) (a b : String) (m : Int),
        ((q.flag_for_investigation i a b m).1).auto_assignment = q.auto_assignment := by
      intro q a b m
      unfold ClaimsProcessor.flag_for_investigation
      cases hq : q.get_claim i with
      | none => rfl
      | some cc =>
        cases hfi : (q.adjusters.filter
            (fun kv => kv.2.specialization == some "fraud")).map Prod.fst with
        | nil => simp only [hfi]; rfl
        | cons inv rest => simp only [hfi]; rfl
    dsimp only
    split_ifs <;> simp only [hfl, setClaim_auto_assignment]

theorem fraud_multiple_validate (p : ClaimsProcessor) (i : String) (now : Int) :
    (p._validate_claim i now).fraud_multiple_claims = p.fraud_multiple_claims := by
  unfold ClaimsProcessor._validate_claim
  cases hc : p.get_claim i with
  | none => rfl
  | some c =>
    dsimp only
    split_ifs <;>
      simp only [fraud_multiple_flag, setClaim_fraud_multiple]

theorem keys_validate (p : ClaimsProcessor) (i : String) (now : Int) :
    (p._validate_claim i now).claims.map Prod.fst = p.claims.map Prod.fst := by
  unfold ClaimsProcessor._validate_claim
  cases hc : p.get_claim i with
  | none => rfl
  | some c =>
    dsimp only
    split_ifs <;>
      simp only [keys_flag, keys_setClaim]

/-! ### Updating a freshly appended claim -/

theorem map_upd_eq_of_fresh (l : List (String × Claim)) (i : String) (f : Claim → Claim)
    (h : ∀ kv ∈ l, kv.1 ≠ i) :
    l.map (fun kv => if kv.1 == i then (kv.1, f kv.2) else kv) = l := by
  induction l with
  | nil => rfl
  | cons hd tl ih =>
    have hb : ¬ ((hd.1 == i) = true) := by simp; exact h hd (by simp)
    simp only [List.map_cons, if_neg hb]
    rw [ih (fun kv hkv => h kv (by simp [hkv]))]

theorem setClaim_append_fresh (p : ClaimsProcessor) (i : String) (c : Claim) (f : Claim → Claim)
    (h : ∀ kv ∈ p.claims, kv.1 ≠ i) :
    ({ p with claims := p.claims ++ [(i, c)] } : ClaimsProcessor).setClaim i f
      = { p with claims := p.claims ++ [(i, f c)] } := by
  unfold ClaimsProcessor.setClaim
  congr 1
  rw [show ({ p with claims := p.claims ++ [(i, c)] } : ClaimsProcessor).claims
      = p.claims ++ [(i, c)] from rfl]
  rw [List.map_append, map_upd_eq_of_fresh _ _ _ h]
  simp

theorem count_adjuster_append (p : ClaimsProcessor) (i : String) (c : Claim) (a : String) :
    (({ p with claims := p.claims ++ [(i, c)] } : ClaimsProcessor).get_claims_by_adjuster
        a).length
      = (p.get_claims_by_adjuster a).length
        + (if c.assigned_adjuster == some a then 1 else 0) := by
  unfold ClaimsProcessor.get_claims_by_adjuster
  simp only [List.map_append, List.map_cons, List.map_nil, List.filter_append,
    List.length_append]
  congr 1
  rw [List.filter_cons]
  split <;> simp

/-! ### Adjuster-workload preservation under empty fraud-investigator pool -/

@[simp] theorem count_adjuster_setClaim_note (p : ClaimsProcessor) (i s u : String)
    (n : Int) (a : String) :
    ((p.setClaim i (fun c => c.add_note s u n)).get_claims_by_adjuster a).length
      = (p.get_claims_by_adjuster a).length :=
  count_adjuster_setClaim _ _ _ _ (fun c => by simp)

@[simp] theorem count_adjuster_setClaim_status (p : ClaimsProcessor) (i s u : String)
    (n : Int) (a : String) :
    ((p.setClaim i (fun c => (c.update_status s u n).1)).get_claims_by_adjuster a).length
      = (p.get_claims_by_adjuster a).length :=
  count_adjuster_setClaim _ _ _ _ (fun c => by simp)

theorem count_adjuster_flag_empty (p : ClaimsProcessor) (i r b : String) (now : Int)
    (a : String)
    (hinv : p.adjusters.filter (fun kv => kv.2.specialization == some "fraud") = []) :
    (((p.flag_for_investigation i r b now).1).get_claims_by_adjuster a).length
      = (p.get_claims_by_adjuster a).length := by
  unfold ClaimsProcessor.flag_for_investigation
  cases hc : p.get_claim i with
  | none => rfl
  | some c =>
    dsimp only
    simp only [hinv, List.map_nil, count_adjuster_setClaim_note,
      count_adjuster_setClaim_status]

theorem count_adjuster_validate_empty (p : ClaimsProcessor) (i : String) (now : Int)
    (a : String)
    (hinv : p.adjusters.filter (fun kv => kv.2.specialization == some "fraud") = []) :
    ((p._validate_claim i now).get_claims_by_adjuster a).length
      = (p.get_claims_by_adjuster a).length := by
  unfold ClaimsProcessor._validate_claim
  cases hc : p.get_claim i with
  | none => rfl
  | some c =>
    dsimp only
    split_ifs <;>
      first
      | rfl
      | simp only [count_adjuster_flag_empty, setClaim_adjusters, hinv,
          count_adjuster_setClaim_note]

@[simp] theorem assigned_getClaim_setClaim_note (p : ClaimsProcessor) (i j s u : String)
    (n : Int) :
    ((p.setClaim i (fun c => c.add_note s u n)).get_claim j).map Claim.assigned_adjuster
      = (p.get_claim j).map Claim.assigned_adjuster :=
  proj_getClaim_setClaim _ _ _ _ _ (fun c => by simp)

@[simp] theorem assigned_getClaim_setClaim_status (p : ClaimsProcessor) (i j s u : String)
    (n : Int) :
    ((p.setClaim i (fun c => (c.update_status s u n).1)).get_claim j).map
        Claim.assigned_adjuster
      = (p.get_claim j).map Claim.assigned_adjuster :=
  proj_getClaim_setClaim _ _ _ _ _ (fun c => by simp)

theorem assigned_validate_empty (p : ClaimsProcessor) (i : String) (now : Int) (j : String)
    (hinv : p.adjusters.filter (fun kv => kv.2.specialization == some "fraud") = []) :
    ((p._validate_claim i now).get_claim j).map Claim.assigned_adjuster
      = (p.get_claim j).map Claim.assigned_adjuster := by
  unfold ClaimsProcessor._validate_claim
  cases hc : p.get_claim i with
  | none => rfl
  | some c =>
    dsimp only
    split_ifs <;>
      first
      | rfl
      | simp only [assigned_flag, setClaim_adjusters, hinv,
          assigned_getClaim_setClaim_note, assigned_getClaim_setClaim_status]

/-! ### The workload-argmin characterisation of `_auto_assign_adjuster` -/

theorem auto_assign_spec (p : ClaimsProcessor) (i : String) (now : Int) (c : Claim)
    (hc : p.get_claim i = some c) (hne : p.adjusters ≠ []) :
    ∃ kv, kv ∈ p.candidate_adjusters c.claim_type
      ∧ p._auto_assign_adjuster i now
          = p.setClaim i (fun cc => cc.assign_adjuster kv.1 "SYSTEM" now)
      ∧ ∀ kv2 ∈ p.candidate_adjusters c.claim_type,
          (p.get_claims_by_adjuster kv.1).length
            ≤ (p.get_claims_by_adjuster kv2.1).length := by
  unfold ClaimsProcessor._auto_assign_adjuster
  simp only [hc]
  have he : ¬ (p.adjusters.isEmpty = true) := by
    cases hl : p.adjusters with
    | nil => exact absurd hl hne
    | cons x xs => simp [hl]
  rw [if_neg he]
  have hcand : p.candidate_adjusters c.claim_type ≠ [] := by
    unfold ClaimsProcessor.candidate_adjusters
    dsimp only
    split
    · exact hne
    · next hno =>
        intro h
        rw [h] at hno
        exact hno rfl
  cases hw : p.candidate_adjusters c.claim_type with
  | nil => exact absurd hw hcand
  | cons s0 srest =>
    simp only [hw, List.map_cons]
    obtain ⟨mem, b1, b2⟩ := foldl_argmin_spec
      (srest.map (fun kv => (kv.1, (p.get_claims_by_adjuster kv.1).length)))
      (s0.1, (p.get_claims_by_adjuster s0.1).length)
    have memmap : (srest.map (fun kv => (kv.1, (p.get_claims_by_adjuster kv.1).length))).foldl
        (fun best kv => if kv.2 < best.2 then kv else best)
        (s0.1, (p.get_claims_by_adjuster s0.1).length)
        ∈ (s0 :: srest).map (fun kv => (kv.1, (p.get_claims_by_adjuster kv.1).length)) := by
      rw [List.map_cons]; exact mem
    obtain ⟨kv, hkvmem, hkveq⟩ := List.mem_map.mp memmap
    have hfst : argminFirst (s0.1, (p.get_claims_by_adjuster s0.1).length)
        (srest.map (fun kv => (kv.1, (p.get_claims_by_adjuster kv.1).length))) = kv.1 := by
      unfold argminFirst
      rw [← hkveq]
    refine ⟨kv, hkvmem, by rw [hfst], ?_⟩
    intro kv2 hkv2
    have hmem2 : (kv2.1, (p.get_claims_by_adjuster kv2.1).length)
        ∈ ((s0.1, (p.get_claims_by_adjuster s0.1).length)
            :: srest.map (fun kv => (kv.1, (p.get_claims_by_adjuster kv.1).length))) := by
      have : (kv2.1, (p.get_claims_by_adjuster kv2.1).length)
          ∈ (s0 :: srest).map (fun kv => (kv.1, (p.get_claims_by_adjuster kv.1).length)) :=
        List.mem_map_of_mem _ hkv2
      rw [List.map_cons] at this
      exact this
    have hwl : (p.get_claims_by_adjuster kv.1).length
        = ((srest.map (fun kv => (kv.1, (p.get_claims_by_adjuster kv.1).length))).foldl
            (fun best kv => if kv.2 < best.2 then kv else best)
            (s0.1, (p.get_claims_by_adjuster s0.1).length)).2 := by
      rw [← hkveq]
    rw [hwl]
    rcases List.mem_cons.mp hmem2 with h' | h'
    · rw [show (p.get_claims_by_adjuster kv2.1).length
          = ((kv2.1, (p.get_claims_by_adjuster kv2.1).length)).2 from rfl, h']
      exact b1
    · exact b2 _ h'

/-! ### `Claim.create` projections -/

@[simp] theorem create_claim_id_proj (i pn t : String) (inc rep : Int) (d : String)
    (info : List (String × String)) (ev : ℚ) (now : Int) :
    (Claim.create i pn t inc rep d info ev now).claim_id = i := rfl

@[simp] theorem create_policy_number_proj (i pn t : String) (inc rep : Int) (d : String)
    (info : List (String × String)) (ev : ℚ) (now : Int) :
    (Claim.create i pn t inc rep d info ev now).policy_number = pn := rfl

@[simp] theorem create_claim_type_proj (i pn t : String) (inc rep : Int) (d : String)
    (info : List (String × String)) (ev : ℚ) (now : Int) :
    (Claim.create i pn t inc rep d info ev now).claim_type = t := rfl

@[simp] theorem create_status_proj (i pn t : String) (inc rep : Int) (d : String)
    (info : List (String × String)) (ev : ℚ) (now : Int) :
    (Claim.create i pn t inc rep d info ev now).status = "NEW" := rfl

@[simp] theorem create_assigned_proj (i pn t : String) (inc rep : Int) (d : String)
    (info : List (String × String)) (ev : ℚ) (now : Int) :
    (Claim.create i pn t inc rep d info ev now).assigned_adjuster = none := rfl

@[simp] theorem create_coverage_proj (i pn t : String) (inc rep : Int) (d : String)
    (info : List (String × String)) (ev : ℚ) (now : Int) :
    (Claim.create i pn t inc rep d info ev now).coverage_verified = false := rfl

@[simp] theorem create_estimated_proj (i pn t : String) (inc rep : Int) (d : String)
    (info : List (String × String)) (ev : ℚ) (now : Int) :
    (Claim.create i pn t inc rep d info ev now).estimated_value = ev := rfl

/-! ### `create_claim` preservation lemmas -/

theorem adjusters_create (p : ClaimsProcessor) (i pn t : String) (inc rep : Int) (d : String)
    (info : List (String × String)) (ev : ℚ) (now : Int) :
    ((p.create_claim i pn t inc rep d info ev now).1).adjusters = p.adjusters := by
  unfold ClaimsProcessor.create_claim
  dsimp only
  rw [adjusters_validate]
  split
  · rw [adjusters_auto]
  · rfl

theorem auto_assignment_create (p : ClaimsProcessor) (i pn t : String) (inc rep : Int)
    (d : String) (info : List (String × String)) (ev : ℚ) (now : Int) :
    ((p.create_claim i pn t inc rep d info ev now).1).auto_assignment = p.auto_assignment := by
  unfold ClaimsProcessor.create_claim
  dsimp only
  rw [auto_assignment_validate]
  split
  · rw [auto_assignment_auto]
  · rfl

theorem fraud_multiple_create (p : ClaimsProcessor) (i pn t : String) (inc rep : Int)
    (d : String) (info : List (String × String)) (ev : ℚ) (now : Int) :
    ((p.create_claim i pn t inc rep d info ev now).1).fraud_multiple_claims
      = p.fraud_multiple_claims := by
  unfold ClaimsProcessor.create_claim
  dsimp only
  rw [fraud_multiple_validate]
  split
  · rw [fraud_multiple_auto]
  · rfl

theorem count_policy_create (p : ClaimsProcessor) (i pn t : String) (inc rep : Int)
    (d : String) (info : List (String × String)) (ev : ℚ) (now : Int) (pol : String) :
    (((p.create_claim i pn t inc rep d info ev now).1).get_claims_by_policy pol).length
      = (p.get_claims_by_policy pol).length + (if pn == pol then 1 else 0) := by
  unfold ClaimsProcessor.create_claim
  dsimp only
  rw [count_policy_validate]
  split
  · rw [count_policy_auto, count_policy_append]
    simp only [create_policy_number_proj]
  · rw [count_policy_append]
    simp only [create_policy_number_proj]

theorem keys_create (p : ClaimsProcessor) (i pn t : String) (inc rep : Int) (d : String)
    (info : List (String × String)) (ev : ℚ) (now : Int) :
    ((p.create_claim i pn t inc rep d info ev now).1).claims.map Prod.fst
      = p.claims.map Prod.fst ++ [i] := by
  unfold ClaimsProcessor.create_claim
  dsimp only
  rw [keys_validate]
  split
  · rw [keys_auto, keys_append]
  · rw [keys_append]



/-! ## Claim theorems -/

/-- C1: for every existing claim whose coverage is verified,
`calculate_settlement` succeeds with settlement amount
`min (max (total_damages - deductible) 0) coverage_limit` where
`total_damages` is the sum of the damages mapping's values, writes that
amount as the claim's `actual_value`, and reports
`fully_covered = (total_damages ≤ settlement_amount + deductible)`. -/
theorem C1_settlement_verified (p : ClaimsProcessor) (claim_id : String)
    (damages : List (String × ℚ)) (deductible coverage_limit : ℚ) (now : Int) (c : Claim)
    (hc : p.get_claim claim_id = some c) (hcov : c.coverage_verified = true) :
    (p.calculate_settlement claim_id damages deductible coverage_limit now).2.success = true
    ∧ (p.calculate_settlement claim_id damages deductible coverage_limit now).2.settlement_amount
        = some (min (max ((damages.map Prod.snd).sum - deductible) 0) coverage_limit)
    ∧ (∃ c', (p.calculate_settlement claim_id damages deductible coverage_limit
          now).1.get_claim claim_id = some c'
        ∧ c'.actual_value
            = min (max ((damages.map Prod.snd).sum - deductible) 0) coverage_limit)
    ∧ (p.calculate_settlement claim_id damages deductible coverage_limit now).2.fully_covered
        = some (decide ((damages.map Prod.snd).sum
            ≤ min (max ((damages.map Prod.snd).sum - deductible) 0) coverage_limit
              + deductible)) := by
  have hmax : max (0 : ℚ) ((damages.map Prod.snd).sum - deductible)
      = max ((damages.map Prod.snd).sum - deductible) 0 := max_comm _ _
  unfold ClaimsProcessor.calculate_settlement
  simp only [hc]
  rw [if_neg (not_not_intro hcov)]
  refine ⟨rfl, ?_, ?_, ?_⟩
  · show some (min (max (0 : ℚ) ((damages.map Prod.snd).sum - deductible)) coverage_limit) = _
    rw [hmax]
  · rw [show ((p.setClaim claim_id (fun cc => cc.update_value
        (min (max (0 : ℚ) ((damages.map Prod.snd).sum - deductible)) coverage_limit) false
        "SYSTEM" now)).get_claim claim_id)
      = (p.get_claim claim_id).map (fun cc => cc.update_value
        (min (max (0 : ℚ) ((damages.map Prod.snd).sum - deductible)) coverage_limit) false
        "SYSTEM" now) from getClaim_setClaim_self _ _ _, hc]
    exact ⟨_, rfl, by simp [hmax]⟩
  · show some (decide ((damages.map Prod.snd).sum
        ≤ min (max (0 : ℚ) ((damages.map Prod.snd).sum - deductible)) coverage_limit
          + deductible)) = _
    rw [hmax]

/-- C1 witness: a coverage-verified claim with damages totaling 10000,
deductible 1000 and coverage limit 5000 yields settlement 5000 and
`fully_covered = false`. -/
theorem C1_settlement_verified_witness :
    exProcV.get_claim "c1" = some exClaimV
    ∧ exClaimV.coverage_verified = true
    ∧ (exProcV.calculate_settlement "c1" [("structural", 10000)] 1000 5000 7).2.success = true
    ∧ (exProcV.calculate_settlement "c1" [("structural", 10000)] 1000 5000
        7).2.settlement_amount = some 5000
    ∧ (exProcV.calculate_settlement "c1" [("structural", 10000)] 1000 5000 7).2.fully_covered
        = some false := by
  have h := C1_settlement_verified exProcV "c1" [("structural", 10000)] 1000 5000 7 exClaimV
    (by decide) (by decide)
  refine ⟨by decide, by decide, h.1, ?_, ?_⟩
  · rw [h.2.1]
    norm_num
  · rw [h.2.2.2]
    congr 1
    rw [decide_eq_false_iff_not]
    norm_num

/-- C2: for every existing claim whose coverage is not verified,
`calculate_settlement` fails with error "Coverage not verified",
`settlement_amount = 0`, and still reports `total_damages` as the raw sum
of the damages values (the arithmetic runs before the coverage check). -/
theorem C2_settlement_unverified (p : ClaimsProcessor) (claim_id : String)
    (damages : List (String × ℚ)) (deductible coverage_limit : ℚ) (now : Int) (c : Claim)
    (hc : p.get_claim claim_id = some c) (hcov : c.coverage_verified = false) :
    (p.calculate_settlement claim_id damages deductible coverage_limit now).2.success = false
    ∧ (p.calculate_settlement claim_id damages deductible coverage_limit now).2.error
        = some "Coverage not verified"
    ∧ (p.calculate_settlement claim_id damages deductible coverage_limit
        now).2.settlement_amount = some 0
    ∧ (p.calculate_settlement claim_id damages deductible coverage_limit now).2.total_damages
        = some ((damages.map Prod.snd).sum) := by
  unfold ClaimsProcessor.calculate_settlement
  simp only [hc]
  rw [if_pos (by simp [hcov])]
  exact ⟨rfl, rfl, rfl, rfl⟩

/-- C2 witness: an unverified claim with damages 100 + 23 reports
`total_damages = 123` on failure. -/
theorem C2_settlement_unverified_witness :
    exProcU.get_claim "c1" = some exClaimU
    ∧ exClaimU.coverage_verified = false
    ∧ (exProcU.calculate_settlement "c1" [("a", 100), ("b", 23)] 1000 5000 7).2.success = false
    ∧ (exProcU.calculate_settlement "c1" [("a", 100), ("b", 23)] 1000 5000 7).2.error
        = some "Coverage not verified"
    ∧ (exProcU.calculate_settlement "c1" [("a", 100), ("b", 23)] 1000 5000
        7).2.settlement_amount = some 0
    ∧ (exProcU.calculate_settlement "c1" [("a", 100), ("b", 23)] 1000 5000 7).2.total_damages
        = some 123 := by
  have h := C2_settlement_unverified exProcU "c1" [("a", 100), ("b", 23)] 1000 5000 7 exClaimU
    (by decide) (by decide)
  refine ⟨by decide, by decide, h.1, h.2.1, h.2.2.1, ?_⟩
  rw [h.2.2.2]
  norm_num

/-- C10: on an existing claim with unverified coverage,
`calculate_settlement` is atomic: the processor (and hence the claim — its
notes, actual value, status and last-updated timestamp) is left entirely
unchanged. -/
theorem C10_settlement_unverified_atomic (p : ClaimsProcessor) (claim_id : String)
    (damages : List (String × ℚ)) (deductible coverage_limit : ℚ) (now : Int) (c : Claim)
    (hc : p.get_claim claim_id = some c) (hcov : c.coverage_verified = false) :
    (p.calculate_settlement claim_id damages deductible coverage_limit now).1 = p
    ∧ (p.calculate_settlement claim_id damages deductible coverage_limit now).1.get_claim
        claim_id = some c := by
  unfold ClaimsProcessor.calculate_settlement
  simp only [hc]
  rw [if_pos (by simp [hcov])]
  exact ⟨rfl, hc⟩

/-- C10 witness: the failure branch leaves the concrete processor
unchanged. -/
theorem C10_settlement_unverified_atomic_witness :
    exProcU.get_claim "c1" = some exClaimU
    ∧ exClaimU.coverage_verified = false
    ∧ (exProcU.calculate_settlement "c1" [("a", 100)] 1000 5000 7).1 = exProcU
    ∧ (exProcU.calculate_settlement "c1" [("a", 100)] 1000 5000 7).1.get_claim "c1"
        = some exClaimU := by
  have h := C10_settlement_unverified_atomic exProcU "c1" [("a", 100)] 1000 5000 7 exClaimU
    (by decide) (by decide)
  exact ⟨by decide, by decide, h.1, h.2⟩

/-- C6: `update_status` with a status outside the fixed vocabulary returns
`false` and leaves the claim — status, notes, last_updated, everything —
unchanged. -/
theorem C6_update_status_invalid (c : Claim) (s actor : String) (now : Int)
    (h : s ∉ ["NEW", "ASSIGNED", "INVESTIGATING", "PENDING_INFO", "APPROVED",
        "PARTIAL_APPROVED", "DENIED", "CLOSED", "REOPENED"]) :
    (c.update_status s actor now).2 = false
    ∧ (c.update_status s actor now).1 = c
    ∧ (c.update_status s actor now).1.status = c.status
    ∧ (c.update_status s actor now).1.notes = c.notes
    ∧ (c.update_status s actor now).1.last_updated = c.last_updated := by
  have hcon : ¬ ((CLAIM_STATUS_CODES.map Prod.fst).contains s = true) := by
    intro hmem
    apply h
    simpa [CLAIM_STATUS_CODES] using hmem
  unfold Claim.update_status
  rw [if_neg hcon]
  exact ⟨rfl, rfl, rfl, rfl, rfl⟩

/-- C6 witness: the unknown status "BOGUS" is rejected without mutation. -/
theorem C6_update_status_invalid_witness :
    "BOGUS" ∉ (["NEW", "ASSIGNED", "INVESTIGATING", "PENDING_INFO", "APPROVED",
        "PARTIAL_APPROVED", "DENIED", "CLOSED", "REOPENED"] : List String)
    ∧ (exClaimU.update_status "BOGUS" "adjuster-7" 9).2 = false
    ∧ (exClaimU.update_status "BOGUS" "adjuster-7" 9).1 = exClaimU := by
  have h := C6_update_status_invalid exClaimU "BOGUS" "adjuster-7" 9 (by decide)
  exact ⟨by decide, h.1, h.2.1⟩

/-- C7: for a policy holder with no claim dated within the trailing 3 years,
`get_risk_factor` returns exactly the credit-tier multiplier — 0.85 for
credit score ≥ 750, 0.95 for [650, 750), 1.0 for the gap band [600, 650),
and 1.2 below 600 — where the stored credit score is the constructor-clamped
value `max 300 (min 850 cs)`. -/
theorem C7_risk_factor_tiers (name address : String) (dob cs : Int)
    (hist : List ClaimRecord) (now : Int)
    (hnorecent : ∀ cr ∈ hist, cr.date < now - 3 * 365) :
    (PolicyHolder.create name address dob cs hist).credit_score = max 300 (min 850 cs)
    ∧ (750 ≤ (PolicyHolder.create name address dob cs hist).credit_score →
        (PolicyHolder.create name address dob cs hist).get_risk_factor now = 0.85)
    ∧ (650 ≤ (PolicyHolder.create name address dob cs hist).credit_score
        ∧ (PolicyHolder.create name address dob cs hist).credit_score < 750 →
        (PolicyHolder.create name address dob cs hist).get_risk_factor now = 0.95)
    ∧ (600 ≤ (PolicyHolder.create name address dob cs hist).credit_score
        ∧ (PolicyHolder.create name address dob cs hist).credit_score < 650 →
        (PolicyHolder.create name address dob cs hist).get_risk_factor now = 1)
    ∧ ((PolicyHolder.create name address dob cs hist).credit_score < 600 →
        (PolicyHolder.create name address dob cs hist).get_risk_factor now = 1.2) := by
  have hfilter : hist.filter (fun cr => now - 3 * 365 ≤ cr.date) = [] := by
    rw [List.filter_eq_nil_iff]
    intro cr hcr
    simpa using not_le.mpr (hnorecent cr hcr)
  unfold PolicyHolder.get_risk_factor
  dsimp only
  rw [show (PolicyHolder.create name address dob cs hist).claim_history = hist from rfl,
    hfilter]
  simp only [List.length_nil, lt_irrefl, if_false]
  refine ⟨rfl, ?_, ?_, ?_, ?_⟩
  · intro h
    rw [if_pos (ge_iff_le.mpr h)]
    norm_num
  · rintro ⟨h1, h2⟩
    rw [if_neg (by omega), if_pos (ge_iff_le.mpr h1)]
    norm_num
  · rintro ⟨h1, h2⟩
    rw [if_neg (by omega), if_neg (by omega), if_neg (by omega)]
  · intro h
    rw [if_neg (by omega), if_neg (by omega), if_pos h]
    norm_num

/-- C7 witness: a holder with empty claim history and raw credit score 720
(clamped to 720) gets exactly the 0.95 multiplier. -/
theorem C7_risk_factor_tiers_witness :
    (∀ cr ∈ ([] : List ClaimRecord), cr.date < (0 : Int) - 3 * 365)
    ∧ (PolicyHolder.create "Jo" "1 Main St" 0 720 []).credit_score = max 300 (min 850 720)
    ∧ (PolicyHolder.create "Jo" "1 Main St" 0 720 []).get_risk_factor 0 = 0.95 := by
  have h := C7_risk_factor_tiers "Jo" "1 Main St" 0 720 [] 0 (by simp)
  exact ⟨by simp, h.1, h.2.2.1 (by constructor <;> decide)⟩

/-- C8: `validate_policy_number` accepts exactly the strings that start with
two uppercase letters, hyphen, two digits, hyphen, six digits, hyphen and one
of A, H, C, F, M — a prefix match, so trailing characters are allowed; in
particular "CA-23-123456-H" → true, "CA-23-12345-H" → false,
"ca-23-123456-H" → false, and "CA-23-123456-HX" → true. -/
theorem C8_validate_policy_number :
    (∀ s : String, validate_policy_number s = true ↔ policy_number_spec s)
    ∧ validate_policy_number "CA-23-123456-H" = true
    ∧ validate_policy_number "CA-23-12345-H" = false
    ∧ validate_policy_number "ca-23-123456-H" = false
    ∧ validate_policy_number "CA-23-123456-HX" = true := by
  refine ⟨?_, by decide, by decide, by decide, by decide⟩
  intro s
  obtain ⟨l⟩ := s
  constructor
  · intro h
    rcases l with _ | ⟨c1, _ | ⟨c2, _ | ⟨h1, _ | ⟨d1, _ | ⟨d2, _ | ⟨h2, _ | ⟨e1, _ | ⟨e2,
      _ | ⟨e3, _ | ⟨e4, _ | ⟨e5, _ | ⟨e6, _ | ⟨h3, _ | ⟨t, rest⟩⟩⟩⟩⟩⟩⟩⟩⟩⟩⟩⟩⟩⟩ <;>
      simp only [validate_policy_number, String.toList] at h
    all_goals try exact absurd h (by decide)
    simp only [Bool.and_eq_true, beq_iff_eq] at h
    obtain ⟨⟨⟨⟨⟨⟨⟨⟨⟨⟨⟨⟨⟨hu1, hu2⟩, hh1⟩, hd1⟩, hd2⟩, hh2⟩, he1⟩, he2⟩, he3⟩, he4⟩,
      he5⟩, he6⟩, hh3⟩, ht⟩ := h
    subst hh1; subst hh2; subst hh3
    exact ⟨c1, c2, d1, d2, e1, e2, e3, e4, e5, e6, t, rest, rfl, hu1, hu2, hd1, hd2,
      he1, he2, he3, he4, he5, he6, by simpa using ht⟩
  · rintro ⟨u1, u2, d1, d2, e1, e2, e3, e4, e5, e6, t, rest, heq, hu1, hu2, hd1, hd2,
      he1, he2, he3, he4, he5, he6, ht⟩
    have hl : l = u1 :: u2 :: '-' :: d1 :: d2 :: '-' :: e1 :: e2 :: e3 :: e4 :: e5 :: e6
        :: '-' :: t :: rest := heq
    subst hl
    rcases ht with rfl | rfl | rfl | rfl | rfl <;>
      simp [validate_policy_number, String.toList, hu1, hu2, hd1, hd2, he1, he2, he3,
        he4, he5, he6]

/-- C9: every successful mutating operation — `update_status` with a valid
status, `assign_adjuster`, `add_document`, `add_note`, `update_value`,
`verify_coverage` — appends at least one audit note (the old notes list is a
proper prefix of the new one, so notes never shrink), moves `last_updated`
forward (given a monotone clock `c.last_updated ≤ now`), and never changes
the claim id. -/
theorem C9_mutators_audit (c : Claim) (now : Int) (hnow : c.last_updated ≤ now)
    (s actor adj doc_name doc_type ref note_content reason : String)
    (v : ℚ) (is_est is_cov : Bool)
    (hs : s ∈ CLAIM_STATUS_CODES.map Prod.fst) :
    (c.notes.length < ((c.update_status s actor now).1).notes.length
      ∧ c.notes <+: ((c.update_status s actor now).1).notes
      ∧ c.last_updated ≤ ((c.update_status s actor now).1).last_updated
      ∧ ((c.update_status s actor now).1).claim_id = c.claim_id)
    ∧ (c.notes.length < (c.assign_adjuster adj actor now).notes.length
      ∧ c.notes <+: (c.assign_adjuster adj actor now).notes
      ∧ c.last_updated ≤ (c.assign_adjuster adj actor now).last_updated
      ∧ (c.assign_adjuster adj actor now).claim_id = c.claim_id)
    ∧ (c.notes.length < (c.add_document doc_name doc_type ref actor now).notes.length
      ∧ c.notes <+: (c.add_document doc_name doc_type ref actor now).notes
      ∧ c.last_updated ≤ (c.add_document doc_name doc_type ref actor now).last_updated
      ∧ (c.add_document doc_name doc_type ref actor now).claim_id = c.claim_id)
    ∧ (c.notes.length < (c.add_note note_content actor now).notes.length
      ∧ c.notes <+: (c.add_note note_content actor now).notes
      ∧ c.last_updated ≤ (c.add_note note_content actor now).last_updated
      ∧ (c.add_note note_content actor now).claim_id = c.claim_id)
    ∧ (c.notes.length < (c.update_value v is_est actor now).notes.length
      ∧ c.notes <+: (c.update_value v is_est actor now).notes
      ∧ c.last_updated ≤ (c.update_value v is_est actor now).last_updated
      ∧ (c.update_value v is_est actor now).claim_id = c.claim_id)
    ∧ (c.notes.length < (c.verify_coverage is_cov reason actor now).notes.length
      ∧ c.notes <+: (c.verify_coverage is_cov reason actor now).notes
      ∧ c.last_updated ≤ (c.verify_coverage is_cov reason actor now).last_updated
      ∧ (c.verify_coverage is_cov reason actor now).claim_id = c.claim_id) := by
  have hcon : (CLAIM_STATUS_CODES.map Prod.fst).contains s = true := by
    simpa [CLAIM_STATUS_CODES] using hs
  refine ⟨?_, ?_, ?_, ?_, ?_, ?_⟩
  · unfold Claim.update_status
    rw [if_pos hcon]
    simp [Claim.add_note, hnow]
  · unfold Claim.assign_adjuster
    cases hass : c.assigned_adjuster with
    | some o =>
        dsimp only
        simp [Claim.add_note, hnow]
    | none =>
        dsimp only
        simp +decide [Claim.update_status, Claim.add_note, hnow]
  · unfold Claim.add_document
    simp [Claim.add_note, hnow]
  · simp [Claim.add_note, hnow]
  · unfold Claim.update_value
    cases is_est <;> simp [Claim.add_note, hnow]
  · unfold Claim.verify_coverage
    cases is_cov with
    | true => simp [Claim.add_note, hnow]
    | false =>
        dsimp only
        simp +decide [Claim.update_status, Claim.add_note, hnow]

/-- C9 witness: the audit invariant instantiated on a concrete claim with a
valid target status and a later clock. -/
theorem C9_mutators_audit_witness :
    exClaimU.last_updated ≤ 9
    ∧ "APPROVED" ∈ CLAIM_STATUS_CODES.map Prod.fst
    ∧ (exClaimU.notes.length
        < ((exClaimU.update_status "APPROVED" "u" 9).1).notes.length
      ∧ exClaimU.notes.length < (exClaimU.assign_adjuster "A1" "u" 9).notes.length
      ∧ exClaimU.notes.length
          < (exClaimU.add_document "photo.jpg" "PHOTO" "/p" "u" 9).notes.length
      ∧ exClaimU.notes.length < (exClaimU.add_note "note" "u" 9).notes.length
      ∧ exClaimU.notes.length < (exClaimU.update_value 5 false "u" 9).notes.length
      ∧ exClaimU.notes.length < (exClaimU.verify_coverage true "ok" "u" 9).notes.length) := by
  have h := C9_mutators_audit exClaimU 9 (by decide) "APPROVED" "u" "A1" "photo.jpg" "PHOTO"
    "/p" "note" "ok" 5 false true (by decide)
  exact ⟨by decide, by decide,
    h.1.1, h.2.1.1, h.2.2.1.1, h.2.2.2.1.1, h.2.2.2.2.1.1, h.2.2.2.2.2.1⟩

/-- C4 counterexample: with the documented adjuster-profile shape — adjuster
"FRD" whose `specializations` set contains "fraud" (and no singular
`specialization` key) — `flag_for_investigation` does NOT reassign the claim
to "FRD": the lookup reads the singular `specialization` key, which never
matches, so the previous adjuster "A0" is kept. -/
theorem C4_flag_no_reassign_counterexample :
    ("fraud" ∈ exAdjFraud.specializations)
    ∧ (exProcFraud.get_claim "c1").map (fun c => c.assigned_adjuster) = some (some "A0")
    ∧ ((exProcFraud.flag_for_investigation "c1" "suspicious pattern" "admin" 9).1.get_claim
        "c1").map (fun c => c.assigned_adjuster) = some (some "A0")
    ∧ ¬ (((exProcFraud.flag_for_investigation "c1" "suspicious pattern" "admin"
        9).1.get_claim "c1").map (fun c => c.assigned_adjuster) = some (some "FRD")) := by
  decide

/-- C4 (amended): `flag_for_investigation` on an existing claim forces the
status to INVESTIGATING and appends a note, but the reassignment looks for a
singular `specialization` key equal to "fraud" rather than membership in the
`specializations` set; under the documented profile shape (no adjuster
carries that singular key) the adjuster assignment is always left
unchanged. -/
theorem C4_flag_for_investigation_amended (p : ClaimsProcessor)
    (claim_id reason actor : String) (now : Int) (c : Claim)
    (hc : p.get_claim claim_id = some c)
    (hsing : ∀ kv ∈ p.adjusters, kv.2.specialization ≠ some "fraud") :
    (p.flag_for_investigation claim_id reason actor now).2 = true
    ∧ (∃ c', (p.flag_for_investigation claim_id reason actor now).1.get_claim claim_id
        = some c'
      ∧ c'.status = "INVESTIGATING"
      ∧ c'.assigned_adjuster = c.assigned_adjuster
      ∧ c.notes.length < c'.notes.length) := by
  have hinv : p.adjusters.filter (fun kv => kv.2.specialization == some "fraud") = [] := by
    rw [List.filter_eq_nil_iff]
    intro kv hkv
    simpa using hsing kv hkv
  constructor
  · unfold ClaimsProcessor.flag_for_investigation
    simp only [hc, hinv, List.map_nil]
  · refine ⟨_, flag_getClaim_self _ _ _ _ _ _ hc hinv, ?_, ?_, ?_⟩
    · rw [add_note_status, update_status_status_of_contains _ _ _ _ (by decide)]
    · simp
    · rw [add_note_notes, update_status_notes_of_contains _ _ _ _ (by decide)]
      simp

/-- C4 witness: a concrete processor whose single adjuster has no singular
`specialization` key — flagging succeeds, forces INVESTIGATING and keeps the
assignment. -/
theorem C4_flag_for_investigation_amended_witness :
    exProcFraud.get_claim "c1" = some exClaimA0
    ∧ (∀ kv ∈ exProcFraud.adjusters, kv.2.specialization ≠ some "fraud")
    ∧ (exProcFraud.flag_for_investigation "c1" "suspicious pattern" "admin" 9).2 = true
    ∧ (∃ c', (exProcFraud.flag_for_investigation "c1" "suspicious pattern" "admin"
        9).1.get_claim "c1" = some c'
      ∧ c'.status = "INVESTIGATING"
      ∧ c'.assigned_adjuster = exClaimA0.assigned_adjuster
      ∧ exClaimA0.notes.length < c'.notes.length) := by
  have h := C4_flag_for_investigation_amended exProcFraud "c1" "suspicious pattern" "admin" 9
    exClaimA0 (by decide) (by decide)
  exact ⟨by decide, by decide, h.1, h.2⟩

/-- C5: with auto-assignment enabled and a nonempty adjuster table,
`create_claim` assigns the new claim to a candidate adjuster (specialisation
match, falling back to the whole pool) whose workload is minimal among the
candidates; and in the concrete two-adjuster scenario — both specialised in
the claim type, both at zero workload — the first created claim goes to the
first adjuster in table order and the second to the other. -/
theorem C5_auto_assignment_workload (p : ClaimsProcessor) (i pn t : String) (inc rep : Int)
    (d : String) (info : List (String × String)) (ev : ℚ) (now : Int)
    (hauto : p.auto_assignment = true)
    (hne : p.adjusters ≠ [])
    (hfresh : ∀ kv ∈ p.claims, kv.1 ≠ i)
    (hinv : p.adjusters.filter (fun kv => kv.2.specialization == some "fraud") = []) :
    (∃ kv, kv ∈ p.candidate_adjusters t
       ∧ (((p.create_claim i pn t inc rep d info ev now).1).get_claim i).map
           Claim.assigned_adjuster = some (some kv.1)
       ∧ ∀ kv2 ∈ p.candidate_adjusters t,
           (p.get_claims_by_adjuster kv.1).length ≤ (p.get_claims_by_adjuster kv2.1).length)
    ∧ (((exProcTwoAdj.create_claim "c1" "P1" "HOME" 0 1 "d" [] 100 2).1.get_claim "c1").map
         Claim.assigned_adjuster = some (some "A1"))
    ∧ ((((exProcTwoAdj.create_claim "c1" "P1" "HOME" 0 1 "d" [] 100 2).1.create_claim
          "c2" "P2" "HOME" 0 1 "d" [] 100 3).1.get_claim "c2").map
         Claim.assigned_adjuster = some (some "A2")) := by
  refine ⟨?_, by decide, by decide⟩
  unfold ClaimsProcessor.create_claim
  dsimp only
  rw [if_pos hauto]
  have hget0 : ({ p with claims := p.claims
        ++ [(i, Claim.create i pn t inc rep d info ev now)] } : ClaimsProcessor).get_claim i
      = some (Claim.create i pn t inc rep d info ev now) :=
    getClaim_append_self _ _ _ hfresh
  obtain ⟨kv, hkvmem, heq, hmin⟩ := auto_assign_spec _ i now _ hget0 hne
  refine ⟨kv, hkvmem, ?_, ?_⟩
  · rw [heq, assigned_validate_empty, getClaim_setClaim_self, hget0]
    · simp
    · exact hinv
  · intro kv2 hkv2
    have h1 := hmin kv2 hkv2
    rw [count_adjuster_append, count_adjuster_append] at h1
    simpa using h1

/-- C5 witness: the general conjunct instantiated on the concrete
two-adjuster processor (all hypotheses discharged by computation). -/
theorem C5_auto_assignment_workload_witness :
    exProcTwoAdj.auto_assignment = true
    ∧ exProcTwoAdj.adjusters ≠ []
    ∧ (∃ kv, kv ∈ exProcTwoAdj.candidate_adjusters "HOME"
       ∧ (((exProcTwoAdj.create_claim "c9" "P9" "HOME" 0 1 "d" [] 100 2).1).get_claim
           "c9").map Claim.assigned_adjuster = some (some kv.1)
       ∧ ∀ kv2 ∈ exProcTwoAdj.candidate_adjusters "HOME",
           (exProcTwoAdj.get_claims_by_adjuster kv.1).length
             ≤ (exProcTwoAdj.get_claims_by_adjuster kv2.1).length) := by
  have h := C5_auto_assignment_workload exProcTwoAdj "c9" "P9" "HOME" 0 1 "d" [] 100 2
    (by decide) (by decide) (by decide) (by decide)
  exact ⟨by decide, by decide, h.1⟩

/-- Creating a claim on a policy that already has exactly
`threshold - 1 = 2` stored claims (threshold 3) appends the multiple-claims
note to the new claim without escalating its status. -/
theorem create_third_notes (q : ClaimsProcessor) (pol i t : String) (inc rep : Int)
    (d : String) (info : List (String × String)) (ev : ℚ) (now : Int)
    (hth : q.fraud_multiple_claims = 3)
    (hcnt : (q.get_claims_by_policy pol).length = 2)
    (hfresh : ∀ kv ∈ q.claims, kv.1 ≠ i) :
    ∃ c3, ((q.create_claim i pol t inc rep d info ev now).1).get_claim i = some c3
      ∧ ({ content := "Multiple claims detected for policy: 3 claims",
           created_by := "SYSTEM", timestamp := now } : Note) ∈ c3.notes
      ∧ c3.status ≠ "INVESTIGATING" := by
  unfold ClaimsProcessor.create_claim
  dsimp only
  have hget0 : ({ q with claims := q.claims
        ++ [(i, Claim.create i pol t inc rep d info ev now)] } : ClaimsProcessor).get_claim i
      = some (Claim.create i pol t inc rep d info ev now) :=
    getClaim_append_self _ _ _ hfresh
  split
  · rcases auto_assign_cases ({ q with claims := q.claims
        ++ [(i, Claim.create i pol t inc rep d info ev now)] } : ClaimsProcessor) i now with
      hcase | ⟨a, hcase⟩ <;> rw [hcase]
    · obtain ⟨c3, hg, hs, _, hm⟩ := validate_no_flag_spec _ i now _ hget0
        (by rw [create_policy_number_proj, count_policy_append]
            simp [hcnt, hth])
      refine ⟨c3, hg, ?_, ?_⟩
      · dsimp only at hm
        rw [hth] at hm
        exact hm
      · rw [hs, create_status_proj]
        decide
    · have hq1 : (({ q with claims := q.claims
            ++ [(i, Claim.create i pol t inc rep d info ev now)] } :
              ClaimsProcessor).setClaim i
            (fun c => c.assign_adjuster a "SYSTEM" now)).get_claim i
          = some ((Claim.create i pol t inc rep d info ev now).assign_adjuster a "SYSTEM"
              now) := by
        rw [getClaim_setClaim_self, hget0]
        rfl
      obtain ⟨c3, hg, hs, _, hm⟩ := validate_no_flag_spec _ i now _ hq1
        (by rw [assign_adjuster_policy_number, create_policy_number_proj,
              count_policy_setClaim_assign, count_policy_append]
            simp [hcnt, hth])
      refine ⟨c3, hg, ?_, ?_⟩
      · rw [setClaim_fraud_multiple] at hm
        dsimp only at hm
        rw [hth] at hm
        exact hm
      · rw [hs, assign_adjuster_status_of_none _ _ _ _ rfl]
        decide
  · obtain ⟨c3, hg, hs, _, hm⟩ := validate_no_flag_spec _ i now _ hget0
      (by rw [create_policy_number_proj, count_policy_append]
          simp [hcnt, hth])
    refine ⟨c3, hg, ?_, ?_⟩
    · dsimp only at hm
      rw [hth] at hm
      exact hm
    · rw [hs, create_status_proj]
      decide

/-- Creating a claim on a policy that already has exactly `threshold = 3`
stored claims strictly exceeds the multiple-claims threshold, so the new
claim is flagged: its status becomes INVESTIGATING. -/
theorem create_fourth_flags (q : ClaimsProcessor) (pol i t : String) (inc rep : Int)
    (d : String) (info : List (String × String)) (ev : ℚ) (now : Int)
    (hth : q.fraud_multiple_claims = 3)
    (hcnt : (q.get_claims_by_policy pol).length = 3)
    (hfresh : ∀ kv ∈ q.claims, kv.1 ≠ i)
    (hsing : q.adjusters.filter (fun kv => kv.2.specialization == some "fraud") = []) :
    ∃ c4, ((q.create_claim i pol t inc rep d info ev now).1).get_claim i = some c4
      ∧ c4.status = "INVESTIGATING" := by
  unfold ClaimsProcessor.create_claim
  dsimp only
  have hget0 : ({ q with claims := q.claims
        ++ [(i, Claim.create i pol t inc rep d info ev now)] } : ClaimsProcessor).get_claim i
      = some (Claim.create i pol t inc rep d info ev now) :=
    getClaim_append_self _ _ _ hfresh
  split
  · rcases auto_assign_cases ({ q with claims := q.claims
        ++ [(i, Claim.create i pol t inc rep d info ev now)] } : ClaimsProcessor) i now with
      hcase | ⟨a, hcase⟩ <;> rw [hcase]
    · exact validate_flag_spec _ i now _ hget0
        (by rw [create_policy_number_proj, count_policy_append]
            simp [hcnt, hth])
        hsing
    · have hq1 : (({ q with claims := q.claims
            ++ [(i, Claim.create i pol t inc rep d info ev now)] } :
              ClaimsProcessor).setClaim i
            (fun c => c.assign_adjuster a "SYSTEM" now)).get_claim i
          = some ((Claim.create i pol t inc rep d info ev now).assign_adjuster a "SYSTEM"
              now) := by
        rw [getClaim_setClaim_self, hget0]
        rfl
      exact validate_flag_spec _ i now _ hq1
        (by rw [assign_adjuster_policy_number, create_policy_number_proj,
              count_policy_setClaim_assign, count_policy_append]
            simp [hcnt, hth])
        hsing
  · exact validate_flag_spec _ i now _ hget0
      (by rw [create_policy_number_proj, count_policy_append]
          simp [hcnt, hth])
      hsing

/-- C3: with the multiple-claims threshold configured to 3, creating the 3rd
claim sharing a policy number appends the multiple-claims note to that claim
without changing its status, while creating the 4th claim on the same policy
(count strictly exceeding the threshold) triggers `flag_for_investigation`,
so the 4th claim's status becomes INVESTIGATING. -/
theorem C3_multiple_claims_threshold (p : ClaimsProcessor) (pol i3 i4 t3 t4 : String)
    (inc3 rep3 inc4 rep4 : Int) (d3 d4 : String) (info3 info4 : List (String × String))
    (ev3 ev4 : ℚ) (now3 now4 : Int)
    (hth : p.fraud_multiple_claims = 3)
    (hcount : (p.get_claims_by_policy pol).length = 2)
    (hfresh3 : ∀ kv ∈ p.claims, kv.1 ≠ i3)
    (hfresh4 : ∀ kv ∈ p.claims, kv.1 ≠ i4)
    (hne43 : i4 ≠ i3)
    (hsing : p.adjusters.filter (fun kv => kv.2.specialization == some "fraud") = []) :
    (∃ c3, ((p.create_claim i3 pol t3 inc3 rep3 d3 info3 ev3 now3).1).get_claim i3 = some c3
       ∧ ({ content := "Multiple claims detected for policy: 3 claims",
            created_by := "SYSTEM", timestamp := now3 } : Note) ∈ c3.notes
       ∧ c3.status ≠ "INVESTIGATING")
    ∧ (∃ c4, (((p.create_claim i3 pol t3 inc3 rep3 d3 info3 ev3 now3).1).create_claim i4 pol
          t4 inc4 rep4 d4 info4 ev4 now4).1.get_claim i4 = some c4
       ∧ c4.status = "INVESTIGATING") := by
  constructor
  · exact create_third_notes p pol i3 t3 inc3 rep3 d3 info3 ev3 now3 hth hcount hfresh3
  · apply create_fourth_flags
    · rw [fraud_multiple_create]
      exact hth
    · rw [count_policy_create]
      simp [hcount]
    · intro kv hkv
      have hk : kv.1 ∈ ((p.create_claim i3 pol t3 inc3 rep3 d3 info3 ev3
          now3).1).claims.map Prod.fst := List.mem_map_of_mem _ hkv
      rw [keys_create] at hk
      rcases List.mem_append.mp hk with hin | hin
      · obtain ⟨kv0, hkv0, hfst⟩ := List.mem_map.mp hin
        rw [← hfst]
        exact hfresh4 kv0 hkv0
      · have : kv.1 = i3 := by simpa using hin
        rw [this]
        exact fun h => hne43 h.symm
    · rw [adjusters_create]
      exact hsing

/-- C3 witness: on a processor already holding two claims on policy "P1"
with threshold 3, the 3rd claim gets the multiple-claims note without the
INVESTIGATING status, and the 4th claim's status becomes INVESTIGATING. -/
theorem C3_multiple_claims_threshold_witness :
    exProcTwoClaims.fraud_multiple_claims = 3
    ∧ (exProcTwoClaims.get_claims_by_policy "P1").length = 2
    ∧ ((∃ c3, ((exProcTwoClaims.create_claim "b3" "P1" "HOME" 0 1 "d3" [] 100
          5).1).get_claim "b3" = some c3
       ∧ ({ content := "Multiple claims detected for policy: 3 claims",
            created_by := "SYSTEM", timestamp := 5 } : Note) ∈ c3.notes
       ∧ c3.status ≠ "INVESTIGATING")
      ∧ (∃ c4, (((exProcTwoClaims.create_claim "b3" "P1" "HOME" 0 1 "d3" [] 100
            5).1).create_claim "b4" "P1" "HOME" 0 1 "d4" [] 100 6).1.get_claim "b4" = some c4
       ∧ c4.status = "INVESTIGATING")) := by
  have h := C3_multiple_claims_threshold exProcTwoClaims "P1" "b3" "b4" "HOME" "HOME" 0 1 0 1
    "d3" "d4" [] [] 100 100 5 6 (by decide) (by decide) (by decide) (by decide) (by decide)
    (by decide)
  exact ⟨by decide, by decide, h⟩

end ClaimsLib
